import Mathlib

/-!
The gallery site: renderer, collection page and hero particles.

A shallow embedding of `src/shared/gallery-renderer.js`,
`src/shared/collection-loader.js` (the poster section with its filter bar) and
`src/shared/hero-canvas.js`, followed by the properties proved about them.

Conventions of the embedding:

* A JavaScript value held in an item record is a `JSVal`: a primitive
  (`undefined`, `null`, a boolean, an integer-valued number, a string) or an
  array of primitives.  A property that a record lacks reads as `undefined`,
  which is how a missing field is represented.
* The document is a map from element ids to the markup last assigned to the
  element's `innerHTML`; `none` is an absent element.
* A function that can throw returns `Except String`, the error being the
  message of the `TypeError`.
* Particle arithmetic is exact (`ℚ`), the random source is a stream of draws.
-/

namespace Gallery

/-! ## JavaScript values -/

/-- Primitive JavaScript values.  `num n` is an integer-valued number whose
decimal numeral is its string form. -/
inductive Prim where
  | undefined
  | null
  | bool (b : Bool)
  | num (n : Int)
  | str (s : String)
  deriving DecidableEq, Repr

/-- A value of an item field: a primitive or an array of primitives. -/
inductive JSVal where
  | prim (p : Prim)
  | arr (xs : List Prim)
  deriving DecidableEq, Repr

/-- `ToString` on a primitive, as performed by a template literal. -/
def Prim.toStr : Prim → String
  | .undefined => "undefined"
  | .null => "null"
  | .bool true => "true"
  | .bool false => "false"
  | .num n => toString n
  | .str s => s

/-- The string an array element contributes to `Array.prototype.join`:
`undefined` and `null` contribute the empty string. -/
def Prim.joinStr : Prim → String
  | .undefined => ""
  | .null => ""
  | p => p.toStr

/-- `ToString` on a field value; an array is joined with commas. -/
def JSVal.toStr : JSVal → String
  | .prim p => p.toStr
  | .arr xs => String.intercalate "," (xs.map Prim.joinStr)

/-- Strict equality `v === 'lit'` of a field value with a string literal. -/
def JSVal.isStr (v : JSVal) (lit : String) : Bool :=
  decide (v = .prim (.str lit))

/-! ## Item records -/

/-- GifItem `{ id, file, name, desc, palette }`. -/
structure GifItem where
  id : JSVal
  file : JSVal
  name : JSVal
  desc : JSVal
  palette : JSVal
  deriving DecidableEq, Repr

/-- PdfItem `{ n, file, name, concept, series, palette }`.  The series tag is a
primitive, compared with `===` and collected in a `Set`. -/
structure PdfItem where
  n : JSVal
  file : JSVal
  name : JSVal
  concept : JSVal
  series : Prim
  palette : JSVal
  deriving DecidableEq, Repr

/-- StandaloneItem `{ file, name, desc, format }`. -/
structure StandaloneItem where
  file : JSVal
  name : JSVal
  desc : JSVal
  format : JSVal
  deriving DecidableEq, Repr

/-- SourceItem `{ file, name, desc }`. -/
structure SourceItem where
  file : JSVal
  name : JSVal
  desc : JSVal
  deriving DecidableEq, Repr

/-! ## The document -/

/-- The document: element id ↦ markup assigned to its `innerHTML`. -/
abbrev Dom := String → Option String

/-- `document.getElementById(id)`: the element's content, `none` if absent. -/
def getElementById (dom : Dom) (id : String) : Option String := dom id

/-- The assignment `el.innerHTML = html` for the element with the given id. -/
def setInnerHTML (dom : Dom) (id : String) (html : String) : Dom :=
  fun k => if k = id then some html else dom k

/-- Modelled from the spec: `observeFadeIns` of `scroll-animations.js` (not among
the sources) registers newly inserted fade-in elements with a visibility
observer; it assigns no container content. -/
def observeFadeIns (dom : Dom) : Dom := dom

/-! ## gallery-renderer.js -/

/-- The constant `PDF_ICON_SVG`. -/
def PDF_ICON_SVG : String :=
  "<svg class=\"pdf-icon\" viewBox=\"0 0 24 24\" fill=\"none\" stroke=\"currentColor\" stroke-width=\"1.5\">\n" ++
  "  <path d=\"M7 21h10a2 2 0 002-2V9l-6-6H7a2 2 0 00-2 2v14a2 2 0 002 2z\"/>\n" ++
  "  <path d=\"M13 3v6h6\"/>\n" ++
  "</svg>"

/-- The card template of `renderGifs` for one item; `total` is `gifs.length`. -/
def gifCard (basePath : String) (total : Nat) (g : GifItem) : String :=
  "\n    <a href=\"" ++ basePath ++ "gif/" ++ g.id.toStr ++ "-" ++ g.file.toStr ++
    ".gif\" class=\"gif-card fade-in\" target=\"_blank\">" ++
  "\n      <img src=\"" ++ basePath ++ "gif/" ++ g.id.toStr ++ "-" ++ g.file.toStr ++
    ".gif\" alt=\"" ++ g.name.toStr ++ "\" loading=\"lazy\">" ++
  "\n      <span class=\"gif-badge\">" ++ g.id.toStr ++ " / " ++ toString total ++ "</span>" ++
  "\n      <div class=\"overlay\">" ++
  "\n        <h3>" ++ g.name.toStr ++ "</h3>" ++
  "\n        <p>" ++ g.desc.toStr ++ " &middot; " ++ g.palette.toStr ++ "</p>" ++
  "\n      </div>" ++
  "\n    </a>" ++
  "\n  "

/-- The function `renderGifs(containerId, gifs, basePath)`. -/
def renderGifs (dom : Dom) (containerId : String) (gifs : List GifItem)
    (basePath : String) : Except String Dom :=
  match getElementById dom containerId with
  | none => .ok dom
  | some _ =>
    if gifs.length = 0 then .ok dom
    else .ok (setInnerHTML dom containerId
      (String.join (gifs.map (gifCard basePath gifs.length))))

/-- One palette dot of a PDF card. -/
def paletteDot (c : Prim) : String :=
  "<span class=\"dot\" style=\"background:" ++ c.toStr ++ "\"></span>"

/-- The expression `p.palette.map(c => ...).join('')`: it throws a `TypeError`
unless the palette is an array. -/
def paletteDots : JSVal → Except String String
  | .arr cs => .ok (String.join (cs.map paletteDot))
  | .prim .undefined => .error "TypeError: Cannot read properties of undefined (reading 'map')"
  | .prim .null => .error "TypeError: Cannot read properties of null (reading 'map')"
  | .prim _ => .error "TypeError: p.palette.map is not a function"

/-- The card template of `renderPdfs` around the already rendered dots. -/
def pdfCardWith (basePath : String) (p : PdfItem) (dots : String) : String :=
  "\n    <a href=\"" ++ basePath ++ p.n.toStr ++ "-" ++ p.file.toStr ++
    ".pdf\" class=\"pdf-card fade-in\" target=\"_blank\">" ++
  "\n      " ++ PDF_ICON_SVG ++
  "\n      <div class=\"pdf-number\">" ++ p.n.toStr ++ "</div>" ++
  "\n      <div class=\"pdf-name\">" ++ p.name.toStr ++ "</div>" ++
  "\n      <div class=\"pdf-concept\">" ++ p.concept.toStr ++ "</div>" ++
  "\n      <div class=\"pdf-palette\">" ++
  "\n        " ++ dots ++
  "\n      </div>" ++
  "\n    </a>" ++
  "\n  "

/-- The card template of `renderPdfs` for one item. -/
def pdfCard (basePath : String) (p : PdfItem) : Except String String :=
  (paletteDots p.palette).map (pdfCardWith basePath p)

/-- The parameter default `filter = 'all'`: an omitted (`undefined`) argument
is replaced by the sentinel. -/
def defaultFilter : Prim → Prim
  | .undefined => .str "all"
  | f => f

/-- The list `filter === 'all' ? pdfs : pdfs.filter(p => p.series === filter)`. -/
def filterPdfs (pdfs : List PdfItem) (filter : Prim) : List PdfItem :=
  if filter = .str "all" then pdfs else pdfs.filter (fun p => decide (p.series = filter))

/-- The function `renderPdfs(containerId, pdfs, basePath, filter)`; an omitted
filter is passed as `undefined`. -/
def renderPdfs (dom : Dom) (containerId : String) (pdfs : List PdfItem)
    (basePath : String) (filter : Prim) : Except String Dom :=
  let filter := defaultFilter filter
  match getElementById dom containerId with
  | none => .ok dom
  | some _ =>
    if pdfs.length = 0 then .ok dom
    else
      match (filterPdfs pdfs filter).mapM (pdfCard basePath) with
      | .error e => .error e
      | .ok cards => .ok (observeFadeIns (setInnerHTML dom containerId (String.join cards)))

/-- The card template of `renderStandalone` for one item. -/
def standaloneCard (basePath : String) (s : StandaloneItem) : String :=
  let isImage := s.format.isStr "png" || s.format.isStr "gif" || s.format.isStr "svg"
  let preview :=
    if isImage then
      "<img src=\"" ++ basePath ++ s.file.toStr ++ "\" alt=\"" ++ s.name.toStr ++ "\" loading=\"lazy\">"
    else
      "<div style=\"color:var(--text2);font-size:0.9rem;\">" ++
        (if s.format.isStr "html" then "Interactive" else "PDF Document") ++ "</div>"
  "\n      <a href=\"" ++ basePath ++ s.file.toStr ++
    "\" class=\"standalone-card fade-in\" target=\"_blank\">" ++
  "\n        <div class=\"standalone-preview\">" ++
  "\n          " ++ preview ++
  "\n          <span class=\"format-tag " ++ s.format.toStr ++ "\">." ++ s.format.toStr ++ "</span>" ++
  "\n        </div>" ++
  "\n        <div class=\"standalone-info\">" ++
  "\n          <h3>" ++ s.name.toStr ++ "</h3>" ++
  "\n          <p>" ++ s.desc.toStr ++ "</p>" ++
  "\n        </div>" ++
  "\n      </a>" ++
  "\n    "

/-- The function `renderStandalone(containerId, standalone, basePath)`. -/
def renderStandalone (dom : Dom) (containerId : String) (standalone : List StandaloneItem)
    (basePath : String) : Except String Dom :=
  match getElementById dom containerId with
  | none => .ok dom
  | some _ =>
    if standalone.length = 0 then .ok dom
    else .ok (setInnerHTML dom containerId
      (String.join (standalone.map (standaloneCard basePath))))

/-- The card template of `renderSources` for one item. -/
def sourceCard (basePath : String) (s : SourceItem) : String :=
  "\n    <a href=\"" ++ basePath ++ s.file.toStr ++
    "\" class=\"source-card fade-in\" target=\"_blank\">" ++
  "\n      <h3>" ++ s.file.toStr ++ "</h3>" ++
  "\n      <p><strong>" ++ s.name.toStr ++ "</strong></p>" ++
  "\n      <p style=\"margin-top:0.4rem\">" ++ s.desc.toStr ++ "</p>" ++
  "\n    </a>" ++
  "\n  "

/-- The function `renderSources(containerId, sources, basePath)`. -/
def renderSources (dom : Dom) (containerId : String) (sources : List SourceItem)
    (basePath : String) : Except String Dom :=
  match getElementById dom containerId with
  | none => .ok dom
  | some _ =>
    if sources.length = 0 then .ok dom
    else .ok (setInnerHTML dom containerId
      (String.join (sources.map (sourceCard basePath))))

/-! ### The delegated click listener of `initPdfFilters` -/

/-- An element of the filter bar: its class list and its `data-filter`
attribute (`none` when the attribute is absent). -/
structure Elem where
  classList : List String
  dataFilter : Option String
  deriving DecidableEq, Repr

/-- The operation `classList.contains(c)`. -/
def Elem.hasClass (e : Elem) (c : String) : Bool := decide (c ∈ e.classList)

/-- The operation `classList.remove(c)`. -/
def Elem.removeClass (e : Elem) (c : String) : Elem :=
  { e with classList := e.classList.filter (fun k => decide (k ≠ c)) }

/-- The operation `classList.add(c)`; a token already present is not repeated. -/
def Elem.addClass (e : Elem) (c : String) : Elem :=
  if c ∈ e.classList then e else { e with classList := e.classList ++ [c] }

/-- The value `el.dataset.filter`: `undefined` when the attribute is absent. -/
def Elem.datasetFilter (e : Elem) : Prim :=
  match e.dataFilter with
  | some s => .str s
  | none => .undefined

/-- The state the listener acts on: the filter bar element, its descendant
elements in document order, and the document holding the PDF grid. -/
structure FilterState where
  bar : Elem
  elems : List Elem
  dom : Dom

/-- The target of a click dispatched to the listener on the filter bar: the bar
itself or its `i`-th descendant. -/
inductive Target where
  | bar
  | child (i : Nat)
  deriving DecidableEq, Repr

/-- The element `e.target`, when the target exists. -/
def FilterState.target (s : FilterState) : Target → Option Elem
  | .bar => some s.bar
  | .child i => s.elems[i]?

/-- One iteration of `querySelectorAll('.filter-btn').forEach(b =>
b.classList.remove('active'))` on a descendant of the bar. -/
def deactivate (e : Elem) : Elem :=
  if e.hasClass "filter-btn" then e.removeClass "active" else e

/-- The statement `e.target.classList.add('active')`. -/
def activateTarget (s : FilterState) : Target → FilterState
  | .bar => { s with bar := s.bar.addClass "active" }
  | .child i => { s with elems := s.elems.modify (fun e => e.addClass "active") i }

/-- The document a call of `renderPdfs` leaves behind in the listener: an
exception ends the listener with the document as it was. -/
def afterRender (dom : Dom) : Except String Dom → Dom
  | .ok d => d
  | .error _ => dom

/-- The listener registered by `initPdfFilters`, run on one click. -/
def onFilterClick (pdfContainerId : String) (pdfs : List PdfItem) (basePath : String)
    (s : FilterState) (t : Target) : FilterState :=
  match s.target t with
  | none => s
  | some el =>
    if !el.hasClass "filter-btn" then s
    else
      let s1 : FilterState := { s with elems := s.elems.map deactivate }
      let s2 := activateTarget s1 t
      let rendered := renderPdfs s2.dom pdfContainerId pdfs basePath el.datasetFilter
      { s2 with dom := afterRender s2.dom rendered }

/-! ## collection-loader.js: the poster section -/

/-- The UTF-16 code units of a character. -/
def charUnits (c : Char) : List Nat :=
  if c.toNat < 0x10000 then [c.toNat]
  else [0xD800 + (c.toNat - 0x10000) / 0x400, 0xDC00 + (c.toNat - 0x10000) % 0x400]

/-- The UTF-16 code units of a string, the sequence `Array.prototype.sort`
compares. -/
def utf16 (s : String) : List Nat := s.toList.flatMap charUnits

/-- The default `SortCompare(x, y) ≤ 0` of `Array.prototype.sort`: `undefined`
sorts last, other values by the code units of their string forms. -/
def sortLe : Prim → Prim → Bool
  | .undefined, .undefined => true
  | .undefined, _ => false
  | _, .undefined => true
  | a, b => decide (utf16 a.toStr ≤ utf16 b.toStr)

/-- The array `[...new Set(xs)]`: first occurrences, in insertion order. -/
def newSet (xs : List Prim) : List Prim :=
  xs.foldl (fun acc x => if x ∈ acc then acc else acc ++ [x]) []

/-- The call `xs.sort()` with the default comparator (a stable sort). -/
def sortDefault (xs : List Prim) : List Prim :=
  xs.insertionSort (fun a b => sortLe a b = true)

/-- The constant `seriesSet = [...new Set(pdfs.map(p => p.series))].sort()`. -/
def seriesSet (pdfs : List PdfItem) : List Prim :=
  sortDefault (newSet (pdfs.map (fun p => p.series)))

/-- The button of the filter bar that is seeded first. -/
def allButton (total : Nat) : String :=
  "<button class=\"filter-btn active\" data-filter=\"all\">All (" ++ toString total ++ ")</button>"

/-- The button template of one series value. -/
def seriesButton (s : Prim) : String :=
  "<button class=\"filter-btn\" data-filter=\"" ++ s.toStr ++ "\">" ++ s.toStr ++ "</button>"

/-- The filter bar element of the poster section. -/
def filterBar (pdfs : List PdfItem) : String :=
  "<div class=\"filter-bar\" id=\"pdf-filters\">" ++
  "\n          " ++ allButton pdfs.length ++
  "\n          " ++ String.join ((seriesSet pdfs).map seriesButton) ++
  "\n        </div>"

/-- The markup `renderCollectionPage` appends to `sections` for the posters;
nothing is appended for an empty list. -/
def postersSection (pdfs : List PdfItem) : String :=
  if pdfs.length = 0 then ""
  else
    "\n      <section id=\"posters\">" ++
    "\n        <div class=\"section-header fade-in\">" ++
    "\n          <h2>PDF Posters</h2>" ++
    "\n          <div class=\"divider\"></div>" ++
    "\n          <p>" ++ toString pdfs.length ++
      " unique A3 vector PDFs exploring geometry, fractals, physics, and mathematical beauty.</p>" ++
    "\n        </div>" ++
    "\n        " ++ filterBar pdfs ++
    "\n        <div class=\"pdf-grid\" id=\"pdf-grid\"></div>" ++
    "\n      </section>" ++
    "\n    "

/-! ## hero-canvas.js -/

/-- A particle `{ x, y, vx, vy, r, hue }`, in exact arithmetic. -/
structure Particle where
  x : ℚ
  y : ℚ
  vx : ℚ
  vy : ℚ
  r : ℚ
  hue : ℚ
  deriving DecidableEq

/-- The constant `count = Math.min(80, Math.floor(w * h / 12000))`. -/
def particleCount (w h : Nat) : Nat := min 80 (w * h / 12000)

/-- The function `createParticles()`; `rand k` is the `k`-th value returned by
`Math.random()`, six being drawn per particle in the order of the fields. -/
def createParticles (w h : Nat) (rand : Nat → ℚ) : List Particle :=
  (List.range (particleCount w h)).map fun i =>
    { x := rand (6 * i) * w
      y := rand (6 * i + 1) * h
      vx := (rand (6 * i + 2) - 1 / 2) * (3 / 10)
      vy := (rand (6 * i + 3) - 1 / 2) * (3 / 10)
      r := rand (6 * i + 4) * (3 / 2) + 1 / 2
      hue := rand (6 * i + 5) * 60 + 240 }

/-- The index pairs `(i, j)` on which the nested loops of `draw` run the
distance check, in the order of the loops. -/
def distanceChecks (ps : List Particle) : List (Nat × Nat) :=
  (List.range ps.length).flatMap fun i =>
    (List.range' (i + 1) (ps.length - (i + 1))).map fun j => (i, j)

/-- The body of `particles.forEach` in `draw`, on one particle: advance, then
reflect the velocity on either axis when the new position is out of range. -/
def stepParticle (w h : ℚ) (p : Particle) : Particle :=
  let x := p.x + p.vx
  let y := p.y + p.vy
  let vx := if x < 0 ∨ x > w then p.vx * -1 else p.vx
  let vy := if y < 0 ∨ y > h then p.vy * -1 else p.vy
  { p with x := x, y := y, vx := vx, vy := vy }

/-- The particle as drawn in frame `n`, that is after `n` runs of `draw`. -/
def frame (w h : ℚ) (p : Particle) : Nat → Particle
  | 0 => p
  | n + 1 => stepParticle w h (frame w h p n)

/-- The position is outside `[0, w]` on the x-axis. -/
def Particle.outsideX (w : ℚ) (p : Particle) : Prop := p.x < 0 ∨ w < p.x

/-- The position is outside `[0, h]` on the y-axis. -/
def Particle.outsideY (h : ℚ) (p : Particle) : Prop := p.y < 0 ∨ h < p.y

/-! ## Card elements of a piece of markup -/

/-- Progress in reading an anchor start tag: nothing, `<`, or `<a`. -/
inductive TagScan where
  | idle
  | lt
  | lta
  deriving DecidableEq, Repr

/-- The progress after one more character. -/
def TagScan.next (st : TagScan) (c : Char) : TagScan :=
  if c = '<' then .lt
  else if st = .lt ∧ (c = 'a' ∨ c = 'A') then .lta
  else .idle

/-- The character ends the tag name of a start tag. -/
def endsTagName (c : Char) : Bool :=
  c = ' ' || c = '\n' || c = '\t' || c = '\r' || c = '\x0c' || c = '>' || c = '/'

/-- The progress after a run of characters. -/
def scanRun (st : TagScan) (cs : List Char) : TagScan := cs.foldl TagScan.next st

/-- The number of anchor start tags completed in a run of characters. -/
def scanHits : TagScan → List Char → Nat
  | _, [] => 0
  | st, c :: cs =>
    (if st = .lta ∧ endsTagName c = true then 1 else 0) + scanHits (st.next c) cs

/-- The number of anchor start tags in a piece of markup.  Every card of the
renderers is one anchor element, and their templates hold no other anchor. -/
def anchorCount (html : String) : Nat := scanHits .idle html.toList

/-- The text opens no tag: it has no `<`. -/
def NoMarkup (text : String) : Prop := '<' ∉ text.toList

instance decidableNoMarkup (text : String) : Decidable (NoMarkup text) :=
  inferInstanceAs (Decidable ('<' ∉ text.toList))

/-- No field of the GIF record opens a tag. -/
def GifItem.NoMarkup (g : GifItem) : Prop :=
  Gallery.NoMarkup g.id.toStr ∧ Gallery.NoMarkup g.file.toStr ∧ Gallery.NoMarkup g.name.toStr ∧
  Gallery.NoMarkup g.desc.toStr ∧ Gallery.NoMarkup g.palette.toStr

/-- The palette of the PDF record is an array, and neither its colours nor the
other rendered fields open a tag. -/
def PdfItem.NoMarkup (p : PdfItem) : Prop :=
  Gallery.NoMarkup p.n.toStr ∧ Gallery.NoMarkup p.file.toStr ∧ Gallery.NoMarkup p.name.toStr ∧
  Gallery.NoMarkup p.concept.toStr ∧
  ∃ cs, p.palette = .arr cs ∧ ∀ c ∈ cs, Gallery.NoMarkup c.toStr

/-- No field of the standalone record opens a tag. -/
def StandaloneItem.NoMarkup (s : StandaloneItem) : Prop :=
  Gallery.NoMarkup s.file.toStr ∧ Gallery.NoMarkup s.name.toStr ∧
  Gallery.NoMarkup s.desc.toStr ∧ Gallery.NoMarkup s.format.toStr

/-- No field of the source record opens a tag. -/
def SourceItem.NoMarkup (s : SourceItem) : Prop :=
  Gallery.NoMarkup s.file.toStr ∧ Gallery.NoMarkup s.name.toStr ∧ Gallery.NoMarkup s.desc.toStr

/-- Starting outside a tag, the markup ends outside a start tag name and holds
`k` anchor start tags. -/
def Anchors (html : String) (k : Nat) : Prop :=
  scanRun .idle html.toList = .idle ∧ anchorCount html = k

/-- A source record whose description closes the card and opens another. -/
def injectedSource : SourceItem :=
  { file := .prim (.str "gen.py"), name := .prim (.str "Generator"),
    desc := .prim (.str
      "x</p></a><a href=\"y\" class=\"source-card fade-in\" target=\"_blank\"><p>z") }

/-- A GIF record with all its fields. -/
def sampleGif : GifItem :=
  { id := .prim (.str "01"), file := .prim (.str "flower"), name := .prim (.str "Flower"),
    desc := .prim (.str "Six petals"), palette := .prim (.str "violet") }

/-- A standalone record with all its fields. -/
def sampleStandalone : StandaloneItem :=
  { file := .prim (.str "art/spiral.html"), name := .prim (.str "Spiral"),
    desc := .prim (.str "Interactive spiral"), format := .prim (.str "html") }

/-- A source record with all its fields. -/
def sampleSource : SourceItem :=
  { file := .prim (.str "gen.py"), name := .prim (.str "Generator"),
    desc := .prim (.str "Makes the posters") }

/-! ## Concrete inputs -/

/-- A document whose only element is an empty `pdf-grid` container. -/
def gridDom : Dom := fun k => if k = "pdf-grid" then some "" else none

/-- The two posters of the example scenario, of series `S1` and `S2`. -/
def scenarioPdfs : List PdfItem :=
  [ { n := .prim (.num 1), file := .prim (.str "a"), name := .prim (.str "A"),
      concept := .prim (.str "c"), series := .str "S1", palette := .arr [.str "#fff"] },
    { n := .prim (.num 2), file := .prim (.str "b"), name := .prim (.str "B"),
      concept := .prim (.str "c2"), series := .str "S2", palette := .arr [.str "#000"] } ]

/-- A poster that belongs to a series named `all`. -/
def allPoster : PdfItem :=
  { n := .prim (.num 1), file := .prim (.str "a"), name := .prim (.str "A"),
    concept := .prim (.str "c"), series := .str "all", palette := .arr [] }

/-- A poster of the series `S1`. -/
def s1Poster : PdfItem :=
  { n := .prim (.num 2), file := .prim (.str "b"), name := .prim (.str "B"),
    concept := .prim (.str "c2"), series := .str "S1", palette := .arr [] }

/-- Two posters, the first of which belongs to a series named `all`. -/
def sentinelPdfs : List PdfItem := [allPoster, s1Poster]

/-- The GIF record `{}`: every field is missing. -/
def bareGif : GifItem :=
  { id := .prim .undefined, file := .prim .undefined, name := .prim .undefined,
    desc := .prim .undefined, palette := .prim .undefined }

/-- The PDF record `{}`: every field is missing. -/
def barePdf : PdfItem :=
  { n := .prim .undefined, file := .prim .undefined, name := .prim .undefined,
    concept := .prim .undefined, series := .undefined, palette := .prim .undefined }

/-- The PDF record `{ palette: [] }`: every field but the palette is missing. -/
def paletteOnlyPdf : PdfItem := { barePdf with palette := .arr [] }

/-- The standalone record `{}`: every field is missing. -/
def bareStandalone : StandaloneItem :=
  { file := .prim .undefined, name := .prim .undefined, desc := .prim .undefined,
    format := .prim .undefined }

/-- The source record `{}`: every field is missing. -/
def bareSource : SourceItem :=
  { file := .prim .undefined, name := .prim .undefined, desc := .prim .undefined }

/-- A poster of the given series, with an empty palette. -/
def seriesPoster (series : Prim) : PdfItem := { allPoster with series := series }

/-- Posters of the series `apple` and `Zebra`, in this order. -/
def zebraPdfs : List PdfItem := [seriesPoster (.str "apple"), seriesPoster (.str "Zebra")]

/-- Posters whose series repeat and come in no order; one poster has none. -/
def shuffledPdfs : List PdfItem :=
  [ seriesPoster (.str "S2"), seriesPoster .undefined, seriesPoster (.str "apple"),
    seriesPoster (.str "S1"), seriesPoster (.num 9), seriesPoster (.str "S2"),
    seriesPoster (.str "Zebra"), seriesPoster (.num 10), seriesPoster (.str "S1") ]

/-- The key of the dictionary order of the claim's words, "alphabetical":
the letters of a label, upper and lower case alike. -/
def dictionaryKey (label : String) : List Nat := label.toList.map (fun c => c.toLower.toNat)

/-- The claim's "ascending alphabetical order" between two labels. -/
def dictionaryLe (a b : String) : Prop := dictionaryKey a ≤ dictionaryKey b

/-- The filter bar element of the scenario. -/
def scenarioBar : Elem := { classList := ["filter-bar"], dataFilter := none }

/-- The buttons of the scenario's filter bar as first rendered: "all" active. -/
def scenarioButtons : List Elem :=
  [ { classList := ["filter-btn", "active"], dataFilter := some "all" },
    { classList := ["filter-btn"], dataFilter := some "S1" },
    { classList := ["filter-btn"], dataFilter := some "S2" } ]

/-- The state of the scenario's page before any click. -/
def scenarioState : FilterState :=
  { bar := scenarioBar, elems := scenarioButtons, dom := gridDom }

/-- A particle at the left wall moving left: `(0, 300)` with `vx = -1/10`. -/
def wallParticle : Particle :=
  { x := 0, y := 300, vx := -1 / 10, vy := 1 / 10, r := 1, hue := 270 }

/-- The invariant of the x-axis: the particle is in range, or its next position
is. -/
def InRangeSoonX (w : ℚ) (p : Particle) : Prop :=
  (0 ≤ p.x ∧ p.x ≤ w) ∨ (0 ≤ p.x + p.vx ∧ p.x + p.vx ≤ w)

/-- The invariant of the y-axis. -/
def InRangeSoonY (h : ℚ) (p : Particle) : Prop :=
  (0 ≤ p.y ∧ p.y ≤ h) ∨ (0 ≤ p.y + p.vy ∧ p.y + p.vy ≤ h)

/-! ## Properties of the particle animation -/

/-- The loop of `createParticles` pushes `count` particles. -/
theorem length_createParticles (w h : Nat) (rand : Nat → ℚ) :
    (createParticles w h rand).length = particleCount w h := by
  simp [createParticles]

/-- Claim C2: for a canvas of non-negative integer width `w` and height `h`,
`createParticles` produces exactly `min(80, floor(w*h/12000))` particles, hence
never more than 80, and exactly 40 for an 800 by 600 canvas. -/
theorem createParticles_count (w h : Nat) (rand : Nat → ℚ) :
    (createParticles w h rand).length = min 80 (w * h / 12000) ∧
    (createParticles w h rand).length ≤ 80 ∧
    (createParticles 800 600 rand).length = 40 := by
  refine ⟨?_, ?_, ?_⟩
  · rw [length_createParticles, particleCount]
  · rw [length_createParticles, particleCount]
    exact Nat.min_le_left _ _
  · rw [length_createParticles]
    decide

/-- Twice the number of checks of the first `k` rounds of the outer loop. -/
theorem sum_inner_rounds (n k : Nat) (hk : k ≤ n) :
    2 * ((List.range k).map (fun i => n - (i + 1))).sum = k * (2 * n - k - 1) := by
  induction k with
  | zero => simp
  | succ k ih =>
    obtain ⟨d, rfl⟩ : ∃ d, n = k + 1 + d := ⟨n - (k + 1), by omega⟩
    have ih1 := ih (by omega)
    rw [List.range_succ, List.map_append, List.sum_append, Nat.mul_add, ih1]
    have e1 : 2 * (k + 1 + d) - k - 1 = k + 1 + 2 * d := by omega
    have e2 : 2 * (k + 1 + d) - (k + 1) - 1 = k + 2 * d := by omega
    have e3 : k + 1 + d - (k + 1) = d := by omega
    simp only [List.map_cons, List.map_nil, List.sum_cons, List.sum_nil, e1, e2, e3]
    ring

/-- The number of distance checks of one frame. -/
theorem length_distanceChecks (ps : List Particle) :
    (distanceChecks ps).length = ps.length * (ps.length - 1) / 2 := by
  have h := sum_inner_rounds ps.length ps.length le_rfl
  have e : 2 * ps.length - ps.length - 1 = ps.length - 1 := by omega
  rw [e] at h
  have hl : (distanceChecks ps).length
      = ((List.range ps.length).map (fun i => ps.length - (i + 1))).sum := by
    simp [distanceChecks, List.length_flatMap, Function.comp_def]
  rw [hl]
  omega

/-- The pairs checked in one frame are the pairs `i < j` of indices. -/
theorem mem_distanceChecks (ps : List Particle) (i j : Nat) :
    (i, j) ∈ distanceChecks ps ↔ i < j ∧ j < ps.length := by
  simp only [distanceChecks, List.mem_flatMap, List.mem_range, List.mem_map, List.mem_range',
    Prod.mk.injEq]
  constructor
  · rintro ⟨a, ha, b, ⟨k, hk, rfl⟩, rfl, rfl⟩
    omega
  · rintro ⟨hij, hj⟩
    exact ⟨i, by omega, j, ⟨j - (i + 1), by omega, by omega⟩, rfl, rfl⟩

/-- No pair is checked twice in one frame. -/
theorem nodup_distanceChecks (ps : List Particle) : (distanceChecks ps).Nodup := by
  unfold distanceChecks
  rw [List.nodup_flatMap]
  constructor
  · intro i _
    refine List.Nodup.map ?_ (List.nodup_range' _ _)
    intro a b hab
    simpa using hab
  · refine List.Pairwise.imp_of_mem ?_ (List.nodup_range ps.length)
    intro a b _ _ hab
    simp only [Function.onFun, List.Disjoint, List.mem_map]
    rintro ⟨x, y⟩ ⟨k, _, hk⟩ ⟨l, _, hl⟩
    simp only [Prod.mk.injEq] at hk hl
    exact hab (hk.1.trans hl.1.symm)

/-- Claim C9: for a population of `n` particles one frame of `draw` runs the
distance check on each unordered pair of distinct particles exactly once, that
is `n*(n-1)/2` times, and never more than 3160 times for a population made by
`createParticles`. -/
theorem distanceChecks_pairs (ps : List Particle) :
    (distanceChecks ps).length = ps.length * (ps.length - 1) / 2 ∧
    (distanceChecks ps).Nodup ∧
    (∀ i j, (i, j) ∈ distanceChecks ps ↔ i < j ∧ j < ps.length) ∧
    (∀ i j, i < ps.length → j < ps.length → i ≠ j →
      ((i, j) ∈ distanceChecks ps ∧ (j, i) ∉ distanceChecks ps) ∨
      ((j, i) ∈ distanceChecks ps ∧ (i, j) ∉ distanceChecks ps)) ∧
    (∀ (w h : Nat) (rand : Nat → ℚ),
      (distanceChecks (createParticles w h rand)).length ≤ 3160) := by
  refine ⟨length_distanceChecks ps, nodup_distanceChecks ps, mem_distanceChecks ps, ?_, ?_⟩
  · intro i j hi hj hij
    simp only [mem_distanceChecks]
    omega
  · intro w h rand
    rw [length_distanceChecks]
    have h80 : (createParticles w h rand).length ≤ 80 := by
      rw [length_createParticles, particleCount]
      exact Nat.min_le_left _ _
    generalize (createParticles w h rand).length = n at h80
    have h1 : n * (n - 1) ≤ 80 * 79 := Nat.mul_le_mul h80 (by omega)
    omega

/-- Claim C7, as stated, fails: the particle at `(0, 300)` with `vx = -1/10` on
an 800 by 600 canvas has a positive x-velocity after one step, but its
x-coordinate is then `-1/10`, outside `[0, 800]`. -/
theorem step_at_wall_leaves_range :
    (0 : ℚ) < 800 ∧ wallParticle.x = 0 ∧ wallParticle.vx < 0 ∧
    ¬ (0 < (stepParticle 800 600 wallParticle).vx ∧
       0 ≤ (stepParticle 800 600 wallParticle).x ∧
       (stepParticle 800 600 wallParticle).x ≤ 800) := by
  norm_num [stepParticle, wallParticle]

/-- Claim C7, amended: for every width `w > 0` and every particle at `(0, y)`
with negative x-velocity, one step leaves the particle with positive
x-velocity (the old one negated) and with its x-coordinate equal to the old
x-velocity, that is below 0 by the speed; the step after that brings the
x-coordinate back to 0, inside `[0, w]`, the x-velocity still positive. -/
theorem step_at_wall (w h : ℚ) (p : Particle) (hw : 0 < w) (hx : p.x = 0)
    (hv : p.vx < 0) :
    0 < (stepParticle w h p).vx ∧
    (stepParticle w h p).vx = -p.vx ∧
    (stepParticle w h p).x = p.vx ∧
    (stepParticle w h (stepParticle w h p)).x = 0 ∧
    (stepParticle w h (stepParticle w h p)).x ≤ w ∧
    0 < (stepParticle w h (stepParticle w h p)).vx := by
  have h1 : (stepParticle w h p).x = p.vx := by simp [stepParticle, hx]
  have h2 : (stepParticle w h p).vx = -p.vx := by
    simp only [stepParticle, hx, zero_add]
    rw [if_pos (Or.inl hv)]
    ring
  have h3 : (stepParticle w h (stepParticle w h p)).x = 0 := by
    show (stepParticle w h p).x + (stepParticle w h p).vx = 0
    rw [h1, h2]
    ring
  have h4 : (stepParticle w h (stepParticle w h p)).vx = -p.vx := by
    show (if (stepParticle w h p).x + (stepParticle w h p).vx < 0 ∨
        (stepParticle w h p).x + (stepParticle w h p).vx > w
      then (stepParticle w h p).vx * -1 else (stepParticle w h p).vx) = -p.vx
    rw [h1, h2, if_neg]
    rintro (h | h)
    · linarith
    · have : p.vx + -p.vx = 0 := by ring
      rw [this] at h
      linarith
  refine ⟨?_, h2, h1, h3, ?_, ?_⟩
  · rw [h2]; linarith
  · rw [h3]; exact le_of_lt hw
  · rw [h4]; linarith

/-- The amended claim C7 at the particle `(0, 300)` with `vx = -1/10`. -/
theorem step_at_wall_witness :
    0 < (stepParticle 800 600 wallParticle).vx ∧
    (stepParticle 800 600 wallParticle).vx = -wallParticle.vx ∧
    (stepParticle 800 600 wallParticle).x = wallParticle.vx ∧
    (stepParticle 800 600 (stepParticle 800 600 wallParticle)).x = 0 ∧
    (stepParticle 800 600 (stepParticle 800 600 wallParticle)).x ≤ 800 ∧
    0 < (stepParticle 800 600 (stepParticle 800 600 wallParticle)).vx :=
  step_at_wall 800 600 wallParticle (by norm_num) (by simp [wallParticle])
    (by norm_num [wallParticle])

theorem stepParticle_x (w h : ℚ) (p : Particle) : (stepParticle w h p).x = p.x + p.vx := rfl

theorem stepParticle_y (w h : ℚ) (p : Particle) : (stepParticle w h p).y = p.y + p.vy := rfl

theorem stepParticle_vx (w h : ℚ) (p : Particle) :
    (stepParticle w h p).vx = if p.x + p.vx < 0 ∨ p.x + p.vx > w then p.vx * -1 else p.vx := rfl

theorem stepParticle_vy (w h : ℚ) (p : Particle) :
    (stepParticle w h p).vy = if p.y + p.vy < 0 ∨ p.y + p.vy > h then p.vy * -1 else p.vy := rfl

/-- A step keeps the speed on the x-axis. -/
theorem abs_vx_stepParticle (w h : ℚ) (p : Particle) : |(stepParticle w h p).vx| = |p.vx| := by
  rw [stepParticle_vx]
  split
  · rw [mul_neg_one, abs_neg]
  · rfl

/-- A step keeps the speed on the y-axis. -/
theorem abs_vy_stepParticle (w h : ℚ) (p : Particle) : |(stepParticle w h p).vy| = |p.vy| := by
  rw [stepParticle_vy]
  split
  · rw [mul_neg_one, abs_neg]
  · rfl

/-- A step keeps the invariant of the x-axis. -/
theorem inRangeSoonX_stepParticle (w h : ℚ) (p : Particle) (hp : InRangeSoonX w p) :
    InRangeSoonX w (stepParticle w h p) := by
  unfold InRangeSoonX
  rw [stepParticle_x, stepParticle_vx]
  rcases hp with hin | hnext
  · by_cases hout : p.x + p.vx < 0 ∨ p.x + p.vx > w
    · right
      rw [if_pos hout]
      have e : p.x + p.vx + p.vx * -1 = p.x := by ring
      rw [e]
      exact hin
    · left
      push_neg at hout
      exact hout
  · exact Or.inl hnext

/-- A step keeps the invariant of the y-axis. -/
theorem inRangeSoonY_stepParticle (w h : ℚ) (p : Particle) (hp : InRangeSoonY h p) :
    InRangeSoonY h (stepParticle w h p) := by
  unfold InRangeSoonY
  rw [stepParticle_y, stepParticle_vy]
  rcases hp with hin | hnext
  · by_cases hout : p.y + p.vy < 0 ∨ p.y + p.vy > h
    · right
      rw [if_pos hout]
      have e : p.y + p.vy + p.vy * -1 = p.y := by ring
      rw [e]
      exact hin
    · left
      push_neg at hout
      exact hout
  · exact Or.inl hnext

/-- Every frame satisfies the invariants and has the initial speeds. -/
theorem frame_inRangeSoon (w h : ℚ) (p : Particle) (hx : 0 ≤ p.x ∧ p.x ≤ w)
    (hy : 0 ≤ p.y ∧ p.y ≤ h) (n : Nat) :
    InRangeSoonX w (frame w h p n) ∧ InRangeSoonY h (frame w h p n) ∧
    |(frame w h p n).vx| = |p.vx| ∧ |(frame w h p n).vy| = |p.vy| := by
  induction n with
  | zero => exact ⟨Or.inl hx, Or.inl hy, rfl, rfl⟩
  | succ n ih =>
    obtain ⟨ix, iy, ax, ay⟩ := ih
    refine ⟨inRangeSoonX_stepParticle w h _ ix, inRangeSoonY_stepParticle w h _ iy, ?_, ?_⟩
    · show |(stepParticle w h (frame w h p n)).vx| = |p.vx|
      rw [abs_vx_stepParticle, ax]
    · show |(stepParticle w h (frame w h p n)).vy| = |p.vy|
      rw [abs_vy_stepParticle, ay]

/-- Claim C10: with the canvas dimensions fixed and exact arithmetic, for every
particle that starts inside `[0,w]x[0,h]` and every frame `n`: the magnitudes of
`vx` and `vy` are those of the start; the particle is not outside `[0,w]` on the
x-axis (or `[0,h]` on the y-axis) in frames `n` and `n+1` both; and its
coordinates lie within `|vx|` of `[0,w]` and within `|vy|` of `[0,h]`. -/
theorem frame_bounce (w h : ℚ) (p : Particle)
    (hx : 0 ≤ p.x ∧ p.x ≤ w) (hy : 0 ≤ p.y ∧ p.y ≤ h) (n : Nat) :
    |(frame w h p n).vx| = |p.vx| ∧ |(frame w h p n).vy| = |p.vy| ∧
    ¬ ((frame w h p n).outsideX w ∧ (frame w h p (n + 1)).outsideX w) ∧
    ¬ ((frame w h p n).outsideY h ∧ (frame w h p (n + 1)).outsideY h) ∧
    (-|p.vx| ≤ (frame w h p n).x ∧ (frame w h p n).x ≤ w + |p.vx|) ∧
    (-|p.vy| ≤ (frame w h p n).y ∧ (frame w h p n).y ≤ h + |p.vy|) := by
  obtain ⟨ix, iy, ax, ay⟩ := frame_inRangeSoon w h p hx hy n
  have nx := neg_abs_le (frame w h p n).vx
  have px := le_abs_self (frame w h p n).vx
  have ny := neg_abs_le (frame w h p n).vy
  have py := le_abs_self (frame w h p n).vy
  have zx := abs_nonneg (frame w h p n).vx
  have zy := abs_nonneg (frame w h p n).vy
  rw [ax] at nx px zx
  rw [ay] at ny py zy
  refine ⟨ax, ay, ?_, ?_, ?_, ?_⟩
  · rintro ⟨h1, h2⟩
    have e : (frame w h p (n + 1)).x = (frame w h p n).x + (frame w h p n).vx := rfl
    unfold Particle.outsideX at h1 h2
    rw [e] at h2
    rcases ix with hin | hnext
    · rcases h1 with h1 | h1 <;> linarith [hin.1, hin.2]
    · rcases h2 with h2 | h2 <;> linarith [hnext.1, hnext.2]
  · rintro ⟨h1, h2⟩
    have e : (frame w h p (n + 1)).y = (frame w h p n).y + (frame w h p n).vy := rfl
    unfold Particle.outsideY at h1 h2
    rw [e] at h2
    rcases iy with hin | hnext
    · rcases h1 with h1 | h1 <;> linarith [hin.1, hin.2]
    · rcases h2 with h2 | h2 <;> linarith [hnext.1, hnext.2]
  · rcases ix with hin | hnext
    · constructor <;> linarith [hin.1, hin.2]
    · constructor <;> linarith [hnext.1, hnext.2]
  · rcases iy with hin | hnext
    · constructor <;> linarith [hin.1, hin.2]
    · constructor <;> linarith [hnext.1, hnext.2]

/-- Claim C10 at the particle `(0, 300)` with `vx = -1/10`, frame 1, where the
particle is outside on the x-axis. -/
theorem frame_bounce_witness :
    (frame 800 600 wallParticle 1).outsideX 800 ∧
    |(frame 800 600 wallParticle 1).vx| = |wallParticle.vx| ∧
    |(frame 800 600 wallParticle 1).vy| = |wallParticle.vy| ∧
    ¬ ((frame 800 600 wallParticle 1).outsideX 800 ∧
       (frame 800 600 wallParticle (1 + 1)).outsideX 800) ∧
    ¬ ((frame 800 600 wallParticle 1).outsideY 600 ∧
       (frame 800 600 wallParticle (1 + 1)).outsideY 600) ∧
    (-|wallParticle.vx| ≤ (frame 800 600 wallParticle 1).x ∧
      (frame 800 600 wallParticle 1).x ≤ 800 + |wallParticle.vx|) ∧
    (-|wallParticle.vy| ≤ (frame 800 600 wallParticle 1).y ∧
      (frame 800 600 wallParticle 1).y ≤ 600 + |wallParticle.vy|) :=
  ⟨by norm_num [frame, stepParticle, wallParticle, Particle.outsideX],
    frame_bounce 800 600 wallParticle
      (by norm_num [wallParticle]) (by norm_num [wallParticle]) 1⟩

/-! ## Properties of the gallery renderer -/

set_option maxRecDepth 100000

/-- Claim C3: each of `renderGifs`, `renderPdfs` (with any filter),
`renderStandalone` and `renderSources`, called with an empty item list, returns
without an exception and leaves the document, hence the container's content,
exactly as it was. -/
theorem render_empty_noop (dom : Dom) (containerId basePath : String) (filter : Prim) :
    renderGifs dom containerId [] basePath = .ok dom ∧
    renderPdfs dom containerId [] basePath filter = .ok dom ∧
    renderStandalone dom containerId [] basePath = .ok dom ∧
    renderSources dom containerId [] basePath = .ok dom := by
  refine ⟨?_, ?_, ?_, ?_⟩
  · unfold renderGifs
    cases getElementById dom containerId <;> rfl
  · unfold renderPdfs
    cases getElementById dom containerId <;> rfl
  · unfold renderStandalone
    cases getElementById dom containerId <;> rfl
  · unfold renderSources
    cases getElementById dom containerId <;> rfl

/-- When every palette is an array, every card of a PDF list is built, one per
item and in the order of the items. -/
theorem mapM_pdfCard_ok (basePath : String) (l : List PdfItem)
    (hpal : ∀ p ∈ l, ∃ cs, p.palette = .arr cs) :
    ∃ cards, l.mapM (pdfCard basePath) = .ok cards ∧
      List.Forall₂ (fun p c => pdfCard basePath p = .ok c) l cards := by
  induction l with
  | nil => exact ⟨[], rfl, List.Forall₂.nil⟩
  | cons p l ih =>
    obtain ⟨cards, hm, hf⟩ := ih (fun q hq => hpal q (List.mem_cons_of_mem _ hq))
    obtain ⟨cs, hcs⟩ := hpal p (List.mem_cons_self _ _)
    have hp : pdfCard basePath p = .ok (pdfCardWith basePath p (String.join (cs.map paletteDot))) := by
      simp [pdfCard, hcs, paletteDots, Except.map]
    refine ⟨_ :: cards, ?_, List.Forall₂.cons hp hf⟩
    rw [List.mapM_cons, hp, hm]
    rfl

/-- When a palette is not an array, building the cards throws. -/
theorem mapM_pdfCard_error (basePath : String) (l : List PdfItem)
    (hbad : ∃ p ∈ l, ∀ cs, p.palette ≠ .arr cs) :
    ∃ e, l.mapM (pdfCard basePath) = .error e := by
  induction l with
  | nil => simp at hbad
  | cons p l ih =>
    rw [List.mapM_cons]
    cases hp : pdfCard basePath p with
    | error e => exact ⟨e, rfl⟩
    | ok c =>
      have hl : ∃ q ∈ l, ∀ cs, q.palette ≠ .arr cs := by
        obtain ⟨q, hq, hq2⟩ := hbad
        rcases List.mem_cons.1 hq with rfl | hq
        · exfalso
          unfold pdfCard at hp
          cases hpal : q.palette with
          | arr cs => exact hq2 cs hpal
          | prim v =>
            rw [hpal] at hp
            cases v <;> simp [paletteDots, Except.map] at hp
        · exact ⟨q, hq, hq2⟩
      obtain ⟨e, he⟩ := ih hl
      rw [he]
      exact ⟨e, rfl⟩

/-- The content `renderPdfs` assigns to a present container for a non-empty
list, in terms of the cards of the filtered list. -/
theorem renderPdfs_present (dom : Dom) (containerId basePath : String) (c : String)
    (pdfs : List PdfItem) (filter : Prim) (hc : getElementById dom containerId = some c)
    (hne : pdfs ≠ []) :
    renderPdfs dom containerId pdfs basePath filter =
      match (filterPdfs pdfs (defaultFilter filter)).mapM (pdfCard basePath) with
      | .error e => .error e
      | .ok cards => .ok (setInnerHTML dom containerId (String.join cards)) := by
  unfold renderPdfs
  simp only [hc]
  rw [if_neg (by simpa using hne)]
  rfl

/-! ### Counting the card elements -/

theorem scanRun_append (st : TagScan) (xs ys : List Char) :
    scanRun st (xs ++ ys) = scanRun (scanRun st xs) ys :=
  List.foldl_append _ _ _ _

theorem scanHits_append (st : TagScan) (xs ys : List Char) :
    scanHits st (xs ++ ys) = scanHits st xs + scanHits (scanRun st xs) ys := by
  induction xs generalizing st with
  | nil => simp [scanHits, scanRun]
  | cons c cs ih =>
    show (if st = .lta ∧ endsTagName c = true then 1 else 0)
        + scanHits (st.next c) (cs ++ ys)
      = ((if st = .lta ∧ endsTagName c = true then 1 else 0) + scanHits (st.next c) cs)
        + scanHits (scanRun (st.next c) cs) ys
    rw [ih, Nat.add_assoc]

theorem anchors_intro {html : String} {k : Nat}
    (h1 : scanRun .idle html.toList = .idle) (h2 : anchorCount html = k) : Anchors html k :=
  ⟨h1, h2⟩

/-- The anchors of two pieces of markup add up. -/
theorem Anchors.append {a b : String} {j k : Nat} (ha : Anchors a j) (hb : Anchors b k) :
    Anchors (a ++ b) (j + k) := by
  obtain ⟨ha1, ha2⟩ := ha
  obtain ⟨hb1, hb2⟩ := hb
  unfold anchorCount at ha2 hb2
  constructor
  · rw [String.toList, String.data_append, scanRun_append]
    exact (congrArg (fun st => scanRun st b.data) ha1).trans hb1
  · unfold anchorCount
    rw [String.toList, String.data_append, scanHits_append]
    have e : scanRun .idle a.data = .idle := ha1
    rw [e]
    exact congrArg₂ (· + ·) ha2 hb2

/-- A run of characters without `<` opens no tag. -/
theorem scan_noMarkup (cs : List Char) (h : '<' ∉ cs) :
    scanRun .idle cs = .idle ∧ scanHits .idle cs = 0 := by
  induction cs with
  | nil => exact ⟨rfl, rfl⟩
  | cons c cs ih =>
    have hc : c ≠ '<' := fun e => h (e ▸ List.mem_cons_self _ _)
    have hn : TagScan.next .idle c = .idle := by simp [TagScan.next, hc]
    obtain ⟨i1, i2⟩ := ih (fun hm => h (List.mem_cons_of_mem _ hm))
    constructor
    · show scanRun (TagScan.next .idle c) cs = .idle
      rw [hn]
      exact i1
    · show (if TagScan.idle = TagScan.lta ∧ endsTagName c = true then 1 else 0)
          + scanHits (TagScan.next .idle c) cs = 0
      rw [hn, i2]
      simp

/-- A text without `<` holds no anchor. -/
theorem anchors_noMarkup {text : String} (h : NoMarkup text) : Anchors text 0 :=
  ⟨(scan_noMarkup text.toList h).1, (scan_noMarkup text.toList h).2⟩

theorem digitChar_ne_lt (d : Nat) (h : d < 10) : Nat.digitChar d ≠ '<' := by
  interval_cases d <;> decide

theorem toDigitsCore_noMarkup (fuel n : Nat) (ds : List Char) (h : '<' ∉ ds) :
    '<' ∉ Nat.toDigitsCore 10 fuel n ds := by
  induction fuel generalizing n ds with
  | zero => exact h
  | succ fuel ih =>
    have hd : '<' ∉ Nat.digitChar (n % 10) :: ds := by
      intro hm
      rcases List.mem_cons.1 hm with e | e
      · exact digitChar_ne_lt _ (Nat.mod_lt n (by decide)) e.symm
      · exact h e
    unfold Nat.toDigitsCore
    dsimp only
    split
    · exact hd
    · exact ih _ _ hd

/-- The numeral of a length opens no tag. -/
theorem noMarkup_toString_nat (n : Nat) : NoMarkup (toString n) :=
  toDigitsCore_noMarkup _ n [] (List.not_mem_nil _)

theorem join_cons (card : String) (cards : List String) :
    String.join (card :: cards) = card ++ String.join cards := by
  apply String.ext
  simp [String.data_join]

/-- The anchors of a concatenation of pieces that hold `k` anchors each. -/
theorem anchors_join (k : Nat) (l : List String) (h : ∀ piece ∈ l, Anchors piece k) :
    Anchors (String.join l) (l.length * k) := by
  induction l with
  | nil => exact anchors_intro rfl (by simp [anchorCount, String.join, scanHits])
  | cons piece l ih =>
    rw [join_cons]
    have h1 := (h piece (List.mem_cons_self _ _)).append
      (ih (fun q hq => h q (List.mem_cons_of_mem _ hq)))
    have e : (piece :: l).length * k = k + l.length * k := by
      rw [List.length_cons, Nat.succ_mul, Nat.add_comm]
    rw [e]
    exact h1

theorem anchors_of_eq {html : String} {j k : Nat} (h : Anchors html j) (e : j = k) :
    Anchors html k := e ▸ h

/-- A GIF card whose fields open no tag is one anchor element. -/
theorem anchors_gifCard (basePath : String) (total : Nat) (g : GifItem)
    (hb : NoMarkup basePath) (hg : g.NoMarkup) : Anchors (gifCard basePath total g) 1 := by
  obtain ⟨h1, h2, h3, h4, h5⟩ := hg
  have hn := noMarkup_toString_nat total
  apply anchors_of_eq
  · unfold gifCard
    repeat' first
      | apply Anchors.append
      | exact anchors_noMarkup (by assumption)
      | exact anchors_intro (by decide) rfl
  · rfl

/-- A source card whose fields open no tag is one anchor element. -/
theorem anchors_sourceCard (basePath : String) (src : SourceItem)
    (hb : NoMarkup basePath) (hs : src.NoMarkup) : Anchors (sourceCard basePath src) 1 := by
  obtain ⟨h1, h2, h3⟩ := hs
  apply anchors_of_eq
  · unfold sourceCard
    repeat' first
      | apply Anchors.append
      | exact anchors_noMarkup (by assumption)
      | exact anchors_intro (by decide) rfl
  · rfl

/-- A standalone card whose fields open no tag is one anchor element. -/
theorem anchors_standaloneCard (basePath : String) (st : StandaloneItem)
    (hb : NoMarkup basePath) (hs : st.NoMarkup) :
    Anchors (standaloneCard basePath st) 1 := by
  obtain ⟨h1, h2, h3, h4⟩ := hs
  unfold standaloneCard
  dsimp only
  split
  · apply anchors_of_eq
    · repeat' first
        | apply Anchors.append
        | exact anchors_noMarkup (by assumption)
        | exact anchors_intro (by decide) rfl
    · rfl
  · split
    · apply anchors_of_eq
      · repeat' first
          | apply Anchors.append
          | exact anchors_noMarkup (by assumption)
          | exact anchors_intro (by decide) rfl
      · rfl
    · apply anchors_of_eq
      · repeat' first
          | apply Anchors.append
          | exact anchors_noMarkup (by assumption)
          | exact anchors_intro (by decide) rfl
      · rfl

/-- The palette dots of colours that open no tag hold no anchor. -/
theorem anchors_paletteDots (cs : List Prim) (h : ∀ c ∈ cs, NoMarkup c.toStr) :
    Anchors (String.join (cs.map paletteDot)) 0 := by
  have h0 := anchors_join 0 (cs.map paletteDot) (by
    intro piece hp
    obtain ⟨c, hc, rfl⟩ := List.mem_map.1 hp
    have hcn := h c hc
    apply anchors_of_eq
    · unfold paletteDot
      repeat' first
        | apply Anchors.append
        | exact anchors_noMarkup (by assumption)
        | exact anchors_intro (by decide) rfl
    · rfl)
  rw [Nat.mul_zero] at h0
  exact h0

/-- A PDF card whose fields and dots open no tag is one anchor element. -/
theorem anchors_pdfCardWith (basePath dots : String) (p : PdfItem)
    (hb : NoMarkup basePath) (h1 : NoMarkup p.n.toStr) (h2 : NoMarkup p.file.toStr)
    (h3 : NoMarkup p.name.toStr) (h4 : NoMarkup p.concept.toStr) (hd : Anchors dots 0) :
    Anchors (pdfCardWith basePath p dots) 1 := by
  apply anchors_of_eq
  · unfold pdfCardWith
    repeat' first
      | apply Anchors.append
      | exact hd
      | exact anchors_noMarkup (by assumption)
      | exact anchors_intro (by decide) rfl
  · rfl

/-- A PDF card that was built from a record opening no tag is one anchor. -/
theorem anchors_pdfCard (basePath card : String) (p : PdfItem)
    (hb : NoMarkup basePath) (hp : p.NoMarkup) (hcard : pdfCard basePath p = .ok card) :
    Anchors card 1 := by
  obtain ⟨h1, h2, h3, h4, cs, hcs, hcol⟩ := hp
  have e : pdfCard basePath p
      = .ok (pdfCardWith basePath p (String.join (cs.map paletteDot))) := by
    simp [pdfCard, hcs, paletteDots, Except.map]
  rw [e] at hcard
  have e2 := Except.ok.inj hcard
  rw [← e2]
  exact anchors_pdfCardWith basePath _ p hb h1 h2 h3 h4 (anchors_paletteDots cs hcol)

/-- Every card built for a list of records that open no tag is one anchor. -/
theorem anchors_pdfCards (basePath : String) (pdfs : List PdfItem) (cards : List String)
    (hb : NoMarkup basePath) (hp : ∀ p ∈ pdfs, p.NoMarkup)
    (hf : List.Forall₂ (fun p card => pdfCard basePath p = .ok card) pdfs cards) :
    ∀ card ∈ cards, Anchors card 1 := by
  induction hf with
  | nil => intro card hc; cases hc
  | cons h1 _ ih =>
    intro card hc
    rcases List.mem_cons.1 hc with rfl | hc
    · exact anchors_pdfCard basePath _ _ hb (hp _ (List.mem_cons_self _ _)) h1
    · exact ih (fun q hq => hp q (List.mem_cons_of_mem _ hq)) card hc

/-- Claim C4, as stated, fails: the one-record source list whose description
closes the card and opens another anchor makes `renderSources` assign markup
with two card anchors, not one. -/
theorem render_injected_card :
    [injectedSource].length = 1 ∧
    (∃ d content, renderSources gridDom "pdf-grid" [injectedSource] "./" = .ok d ∧
      getElementById d "pdf-grid" = some content ∧ anchorCount content = 2) ∧
    ¬ ∃ d content, renderSources gridDom "pdf-grid" [injectedSource] "./" = .ok d ∧
      getElementById d "pdf-grid" = some content ∧
      anchorCount content = [injectedSource].length := by
  have hcount : anchorCount (String.join [sourceCard "./" injectedSource]) = 2 := by decide
  refine ⟨rfl, ⟨_, _, rfl, rfl, hcount⟩, ?_⟩
  rintro ⟨d, content, h1, h2, h3⟩
  have e : renderSources gridDom "pdf-grid" [injectedSource] "./"
      = .ok (setInnerHTML gridDom "pdf-grid" (String.join [sourceCard "./" injectedSource])) := rfl
  rw [e] at h1
  have hd := Except.ok.inj h1
  rw [← hd] at h2
  have hc : some (String.join [sourceCard "./" injectedSource]) = some content := h2
  rw [← Option.some.inj hc, hcount] at h3
  exact absurd h3 (by decide)

/-- Claim C4, amended: for a present container, a base path and item lists of
length `n ≥ 1` whose rendered field values contain no `<` (the palettes of the
PDF items being arrays), `renderGifs`, `renderStandalone`, `renderSources` and
`renderPdfs` (filter omitted, or "all") leave in the container the
concatenation of the cards of the items, in the order of the items; every card
is one anchor element and the content holds exactly `n` anchor elements. -/
theorem render_card_elements (dom : Dom) (containerId basePath : String) (c : String)
    (gifs : List GifItem) (pdfs : List PdfItem) (standalone : List StandaloneItem)
    (sources : List SourceItem)
    (hc : getElementById dom containerId = some c)
    (hg : 1 ≤ gifs.length) (hp : 1 ≤ pdfs.length) (hs : 1 ≤ standalone.length)
    (hsrc : 1 ≤ sources.length)
    (hbase : NoMarkup basePath)
    (hgifs : ∀ g ∈ gifs, g.NoMarkup) (hpdfs : ∀ p ∈ pdfs, p.NoMarkup)
    (hstandalone : ∀ s ∈ standalone, s.NoMarkup) (hsources : ∀ s ∈ sources, s.NoMarkup) :
    (∃ d, renderGifs dom containerId gifs basePath = .ok d ∧
      getElementById d containerId
        = some (String.join (gifs.map (gifCard basePath gifs.length))) ∧
      (∀ g ∈ gifs, anchorCount (gifCard basePath gifs.length g) = 1) ∧
      anchorCount (String.join (gifs.map (gifCard basePath gifs.length))) = gifs.length) ∧
    (∃ (d : Dom) (cards : List String),
      List.Forall₂ (fun p card => pdfCard basePath p = .ok card) pdfs cards ∧
      renderPdfs dom containerId pdfs basePath .undefined = .ok d ∧
      renderPdfs dom containerId pdfs basePath (.str "all") = .ok d ∧
      getElementById d containerId = some (String.join cards) ∧
      (∀ card ∈ cards, anchorCount card = 1) ∧
      anchorCount (String.join cards) = pdfs.length) ∧
    (∃ d, renderStandalone dom containerId standalone basePath = .ok d ∧
      getElementById d containerId
        = some (String.join (standalone.map (standaloneCard basePath))) ∧
      (∀ s ∈ standalone, anchorCount (standaloneCard basePath s) = 1) ∧
      anchorCount (String.join (standalone.map (standaloneCard basePath)))
        = standalone.length) ∧
    (∃ d, renderSources dom containerId sources basePath = .ok d ∧
      getElementById d containerId
        = some (String.join (sources.map (sourceCard basePath))) ∧
      (∀ s ∈ sources, anchorCount (sourceCard basePath s) = 1) ∧
      anchorCount (String.join (sources.map (sourceCard basePath))) = sources.length) := by
  have hget : ∀ html, getElementById (setInnerHTML dom containerId html) containerId
      = some html := by
    intro html
    simp [getElementById, setInnerHTML]
  refine ⟨?_, ?_, ?_, ?_⟩
  · refine ⟨setInnerHTML dom containerId _, ?_, hget _, ?_, ?_⟩
    · unfold renderGifs
      simp only [hc]
      rw [if_neg (by omega)]
    · intro g hgm
      exact (anchors_gifCard basePath _ g hbase (hgifs g hgm)).2
    · have h := anchors_join 1 (gifs.map (gifCard basePath gifs.length)) (by
        intro piece hpc
        obtain ⟨g, hgm, rfl⟩ := List.mem_map.1 hpc
        exact anchors_gifCard basePath _ g hbase (hgifs g hgm))
      rw [h.2, List.length_map, Nat.mul_one]
  · obtain ⟨cards, hm, hf⟩ := mapM_pdfCard_ok basePath pdfs
      (fun p hpm => by
        obtain ⟨_, _, _, _, cs, hcs, _⟩ := hpdfs p hpm
        exact ⟨cs, hcs⟩)
    have hne : pdfs ≠ [] := by
      intro h
      rw [h] at hp
      simp at hp
    have hall := anchors_pdfCards basePath pdfs cards hbase hpdfs hf
    refine ⟨setInnerHTML dom containerId (String.join cards), cards, hf, ?_, ?_, hget _, ?_, ?_⟩
    · rw [renderPdfs_present dom containerId basePath c pdfs _ hc hne]
      have e : filterPdfs pdfs (defaultFilter .undefined) = pdfs := by
        simp [defaultFilter, filterPdfs]
      rw [e, hm]
    · rw [renderPdfs_present dom containerId basePath c pdfs _ hc hne]
      have e : filterPdfs pdfs (defaultFilter (.str "all")) = pdfs := by
        simp [defaultFilter, filterPdfs]
      rw [e, hm]
    · intro card hcm
      exact (hall card hcm).2
    · rw [(anchors_join 1 cards hall).2, Nat.mul_one, hf.length_eq]
  · refine ⟨setInnerHTML dom containerId _, ?_, hget _, ?_, ?_⟩
    · unfold renderStandalone
      simp only [hc]
      rw [if_neg (by omega)]
    · intro s hsm
      exact (anchors_standaloneCard basePath s hbase (hstandalone s hsm)).2
    · have h := anchors_join 1 (standalone.map (standaloneCard basePath)) (by
        intro piece hpc
        obtain ⟨s, hsm, rfl⟩ := List.mem_map.1 hpc
        exact anchors_standaloneCard basePath s hbase (hstandalone s hsm))
      rw [h.2, List.length_map, Nat.mul_one]
  · refine ⟨setInnerHTML dom containerId _, ?_, hget _, ?_, ?_⟩
    · unfold renderSources
      simp only [hc]
      rw [if_neg (by omega)]
    · intro s hsm
      exact (anchors_sourceCard basePath s hbase (hsources s hsm)).2
    · have h := anchors_join 1 (sources.map (sourceCard basePath)) (by
        intro piece hpc
        obtain ⟨s, hsm, rfl⟩ := List.mem_map.1 hpc
        exact anchors_sourceCard basePath s hbase (hsources s hsm))
      rw [h.2, List.length_map, Nat.mul_one]

/-- The amended claim C4 at one GIF, the two posters of the example scenario,
one standalone piece and one source script. -/
theorem render_card_elements_witness :
    (∃ d, renderGifs gridDom "pdf-grid" [sampleGif] "./" = .ok d ∧
      getElementById d "pdf-grid"
        = some (String.join ([sampleGif].map (gifCard "./" [sampleGif].length))) ∧
      (∀ g ∈ [sampleGif], anchorCount (gifCard "./" [sampleGif].length g) = 1) ∧
      anchorCount (String.join ([sampleGif].map (gifCard "./" [sampleGif].length)))
        = [sampleGif].length) ∧
    (∃ (d : Dom) (cards : List String),
      List.Forall₂ (fun p card => pdfCard "./" p = .ok card) scenarioPdfs cards ∧
      renderPdfs gridDom "pdf-grid" scenarioPdfs "./" .undefined = .ok d ∧
      renderPdfs gridDom "pdf-grid" scenarioPdfs "./" (.str "all") = .ok d ∧
      getElementById d "pdf-grid" = some (String.join cards) ∧
      (∀ card ∈ cards, anchorCount card = 1) ∧
      anchorCount (String.join cards) = scenarioPdfs.length) ∧
    (∃ d, renderStandalone gridDom "pdf-grid" [sampleStandalone] "./" = .ok d ∧
      getElementById d "pdf-grid"
        = some (String.join ([sampleStandalone].map (standaloneCard "./"))) ∧
      (∀ s ∈ [sampleStandalone], anchorCount (standaloneCard "./" s) = 1) ∧
      anchorCount (String.join ([sampleStandalone].map (standaloneCard "./")))
        = [sampleStandalone].length) ∧
    (∃ d, renderSources gridDom "pdf-grid" [sampleSource] "./" = .ok d ∧
      getElementById d "pdf-grid"
        = some (String.join ([sampleSource].map (sourceCard "./"))) ∧
      (∀ s ∈ [sampleSource], anchorCount (sourceCard "./" s) = 1) ∧
      anchorCount (String.join ([sampleSource].map (sourceCard "./")))
        = [sampleSource].length) :=
  render_card_elements gridDom "pdf-grid" "./" "" [sampleGif] scenarioPdfs [sampleStandalone]
    [sampleSource] rfl (by decide) (by decide) (by decide) (by decide) (by decide)
    (by
      intro g hg
      rw [List.mem_singleton] at hg
      subst hg
      unfold GifItem.NoMarkup
      decide)
    (by
      intro p hp
      simp only [scenarioPdfs, List.mem_cons, List.mem_singleton, List.not_mem_nil,
        or_false] at hp
      rcases hp with rfl | rfl
      · exact ⟨by decide, by decide, by decide, by decide, _, rfl, by decide⟩
      · exact ⟨by decide, by decide, by decide, by decide, _, rfl, by decide⟩)
    (by
      intro s hs
      rw [List.mem_singleton] at hs
      subst hs
      unfold StandaloneItem.NoMarkup
      decide)
    (by
      intro s hs
      rw [List.mem_singleton] at hs
      subst hs
      unfold SourceItem.NoMarkup
      decide)

/-- Claim C1, as stated, fails at the series value "all": of the two posters of
`sentinelPdfs` only the first has the series "all", yet `renderPdfs` called with
the filter "all" does not render the cards of exactly that poster. -/
theorem renderPdfs_sentinel_collision :
    ¬ ∃ cards : List String,
      List.Forall₂ (fun p card => pdfCard "./" p = .ok card)
        (sentinelPdfs.filter (fun p => decide (p.series = .str "all"))) cards ∧
      renderPdfs gridDom "pdf-grid" sentinelPdfs "./" (.str "all")
        = .ok (setInnerHTML gridDom "pdf-grid" (String.join cards)) := by
  rintro ⟨cards, hf, hr⟩
  have hfilter : sentinelPdfs.filter (fun p => decide (p.series = .str "all"))
      = [allPoster] := by decide
  rw [hfilter] at hf
  cases hf with
  | cons h1 h2 =>
    cases h2
    have h1 := Except.ok.inj (h1.symm.trans (rfl : pdfCard "./" allPoster = .ok _))
    subst h1
    have hr2 := congrFun (Except.ok.inj hr) "pdf-grid"
    have hr3 : String.join [pdfCardWith "./" allPoster "", pdfCardWith "./" s1Poster ""]
        = String.join [pdfCardWith "./" allPoster ""] := Option.some.inj hr2
    have hr4 := congrArg String.length hr3
    simp [String.join, pdfCardWith, String.length_append] at hr4
    exact absurd hr4.2 (by decide)

/-- The parameter default, likewise, turns an omitted filter into "all": of the
two posters `[{palette: []}, s1Poster]` only the first has the series
`undefined`, yet `renderPdfs` with the filter `undefined` assigns two cards. -/
theorem renderPdfs_default_collision :
    getElementById
        (afterRender gridDom
          (renderPdfs gridDom "pdf-grid" [paletteOnlyPdf, s1Poster] "./" .undefined))
        "pdf-grid"
      = some (String.join [pdfCardWith "./" paletteOnlyPdf "", pdfCardWith "./" s1Poster ""]) ∧
    [paletteOnlyPdf, s1Poster].filter (fun p => decide (p.series = .undefined))
      = [paletteOnlyPdf] :=
  ⟨rfl, by decide⟩

/-- Claim C1, amended: for a present container, a non-empty PDF list whose
palettes are arrays and every filter value `s` (a string, number, boolean or
`null`) other than the sentinel "all" and other than `undefined`, `renderPdfs`
with filter `s` leaves in the container the cards of exactly the items whose
series is `s`, in their original order, and no other container is touched; with
the filter "all", or with the filter omitted (`undefined`), it leaves the cards
of all the items, in order. -/
theorem renderPdfs_filter (dom : Dom) (containerId basePath c : String) (pdfs : List PdfItem)
    (hc : getElementById dom containerId = some c) (hne : pdfs ≠ [])
    (hpal : ∀ p ∈ pdfs, ∃ cs, p.palette = .arr cs) :
    (∀ s : Prim, s ≠ .str "all" → s ≠ .undefined →
      ∃ (cards : List String) (d : Dom),
        List.Forall₂ (fun p card => pdfCard basePath p = .ok card)
          (pdfs.filter (fun p => decide (p.series = s))) cards ∧
        renderPdfs dom containerId pdfs basePath s = .ok d ∧
        getElementById d containerId = some (String.join cards) ∧
        (∀ k, k ≠ containerId → getElementById d k = getElementById dom k)) ∧
    (∃ (cards : List String) (d : Dom),
      List.Forall₂ (fun p card => pdfCard basePath p = .ok card) pdfs cards ∧
      renderPdfs dom containerId pdfs basePath (.str "all") = .ok d ∧
      renderPdfs dom containerId pdfs basePath .undefined = .ok d ∧
      getElementById d containerId = some (String.join cards) ∧
      (∀ k, k ≠ containerId → getElementById d k = getElementById dom k)) := by
  constructor
  · intro s hs hu
    obtain ⟨cards, hm, hf⟩ := mapM_pdfCard_ok basePath
      (pdfs.filter (fun p => decide (p.series = s)))
      (fun p hp => hpal p (List.mem_of_mem_filter hp))
    refine ⟨cards, setInnerHTML dom containerId (String.join cards), hf, ?_, ?_, ?_⟩
    · rw [renderPdfs_present dom containerId basePath c pdfs _ hc hne]
      have e : filterPdfs pdfs (defaultFilter s)
          = pdfs.filter (fun p => decide (p.series = s)) := by
        have hd : defaultFilter s = s := by
          cases s with
          | undefined => exact absurd rfl hu
          | _ => rfl
        rw [hd, filterPdfs, if_neg hs]
      rw [e, hm]
    · simp [getElementById, setInnerHTML]
    · intro k hk
      simp [getElementById, setInnerHTML, hk]
  · obtain ⟨cards, hm, hf⟩ := mapM_pdfCard_ok basePath pdfs hpal
    refine ⟨cards, setInnerHTML dom containerId (String.join cards), hf, ?_, ?_, ?_, ?_⟩
    · rw [renderPdfs_present dom containerId basePath c pdfs _ hc hne]
      have e : filterPdfs pdfs (defaultFilter (.str "all")) = pdfs := by
        simp [defaultFilter, filterPdfs]
      rw [e, hm]
    · rw [renderPdfs_present dom containerId basePath c pdfs _ hc hne]
      have e : filterPdfs pdfs (defaultFilter .undefined) = pdfs := by
        simp [defaultFilter, filterPdfs]
      rw [e, hm]
    · simp [getElementById, setInnerHTML]
    · intro k hk
      simp [getElementById, setInnerHTML, hk]

/-- The amended claim C1 at the two posters of the example scenario. -/
theorem renderPdfs_filter_witness :
    (∀ s : Prim, s ≠ .str "all" → s ≠ .undefined →
      ∃ (cards : List String) (d : Dom),
        List.Forall₂ (fun p card => pdfCard "./" p = .ok card)
          (scenarioPdfs.filter (fun p => decide (p.series = s))) cards ∧
        renderPdfs gridDom "pdf-grid" scenarioPdfs "./" s = .ok d ∧
        getElementById d "pdf-grid" = some (String.join cards) ∧
        (∀ k, k ≠ "pdf-grid" → getElementById d k = getElementById gridDom k)) ∧
    (∃ (cards : List String) (d : Dom),
      List.Forall₂ (fun p card => pdfCard "./" p = .ok card) scenarioPdfs cards ∧
      renderPdfs gridDom "pdf-grid" scenarioPdfs "./" (.str "all") = .ok d ∧
      renderPdfs gridDom "pdf-grid" scenarioPdfs "./" .undefined = .ok d ∧
      getElementById d "pdf-grid" = some (String.join cards) ∧
      (∀ k, k ≠ "pdf-grid" → getElementById d k = getElementById gridDom k)) :=
  renderPdfs_filter gridDom "pdf-grid" "./" "" scenarioPdfs rfl (by decide)
    (by
      intro p hp
      simp only [scenarioPdfs, List.mem_cons, List.mem_singleton, List.not_mem_nil,
        or_false] at hp
      rcases hp with rfl | rfl
      · exact ⟨_, rfl⟩
      · exact ⟨_, rfl⟩)

/-- Claim C8, as stated, fails for `renderPdfs`: on the one-record list `[{}]`,
whose record lacks its palette, `p.palette.map` throws and no markup is
produced. -/
theorem renderPdfs_missing_palette_throws :
    [barePdf] ≠ [] ∧
    ¬ ∃ dom, renderPdfs gridDom "pdf-grid" [barePdf] "./" .undefined = .ok dom := by
  refine ⟨by decide, ?_⟩
  rintro ⟨dom, h⟩
  have e : renderPdfs gridDom "pdf-grid" [barePdf] "./" .undefined
      = .error "TypeError: Cannot read properties of undefined (reading 'map')" := rfl
  rw [e] at h
  cases h

/-- Claim C8, amended: `renderGifs`, `renderStandalone` and `renderSources` never
throw, whichever fields the records lack, and `renderPdfs` does not throw when
the palette of every record is an array, whichever other fields are missing; a
missing field is rendered as the text `undefined` (a missing `format` also
selects the `PDF Document` placeholder). -/
theorem render_missing_fields (dom : Dom) (containerId basePath : String) (filter : Prim)
    (gifs : List GifItem) (pdfs : List PdfItem) (standalone : List StandaloneItem)
    (sources : List SourceItem)
    (hpal : ∀ p ∈ pdfs, ∃ cs, p.palette = .arr cs) :
    (∃ d, renderGifs dom containerId gifs basePath = .ok d) ∧
    (∃ d, renderPdfs dom containerId pdfs basePath filter = .ok d) ∧
    (∃ d, renderStandalone dom containerId standalone basePath = .ok d) ∧
    (∃ d, renderSources dom containerId sources basePath = .ok d) ∧
    JSVal.toStr (.prim .undefined) = "undefined" ∧
    gifCard "./" 1 bareGif =
      "\n    <a href=\"./gif/undefined-undefined.gif\" class=\"gif-card fade-in\" target=\"_blank\">" ++
      "\n      <img src=\"./gif/undefined-undefined.gif\" alt=\"undefined\" loading=\"lazy\">" ++
      "\n      <span class=\"gif-badge\">undefined / 1</span>" ++
      "\n      <div class=\"overlay\">" ++
      "\n        <h3>undefined</h3>" ++
      "\n        <p>undefined &middot; undefined</p>" ++
      "\n      </div>" ++
      "\n    </a>" ++
      "\n  " ∧
    pdfCard "./" paletteOnlyPdf = .ok (
      "\n    <a href=\"./undefined-undefined.pdf\" class=\"pdf-card fade-in\" target=\"_blank\">" ++
      "\n      " ++ PDF_ICON_SVG ++
      "\n      <div class=\"pdf-number\">undefined</div>" ++
      "\n      <div class=\"pdf-name\">undefined</div>" ++
      "\n      <div class=\"pdf-concept\">undefined</div>" ++
      "\n      <div class=\"pdf-palette\">" ++
      "\n        " ++
      "\n      </div>" ++
      "\n    </a>" ++
      "\n  ") ∧
    standaloneCard "./" bareStandalone =
      "\n      <a href=\"./undefined\" class=\"standalone-card fade-in\" target=\"_blank\">" ++
      "\n        <div class=\"standalone-preview\">" ++
      "\n          <div style=\"color:var(--text2);font-size:0.9rem;\">PDF Document</div>" ++
      "\n          <span class=\"format-tag undefined\">.undefined</span>" ++
      "\n        </div>" ++
      "\n        <div class=\"standalone-info\">" ++
      "\n          <h3>undefined</h3>" ++
      "\n          <p>undefined</p>" ++
      "\n        </div>" ++
      "\n      </a>" ++
      "\n    " ∧
    sourceCard "./" bareSource =
      "\n    <a href=\"./undefined\" class=\"source-card fade-in\" target=\"_blank\">" ++
      "\n      <h3>undefined</h3>" ++
      "\n      <p><strong>undefined</strong></p>" ++
      "\n      <p style=\"margin-top:0.4rem\">undefined</p>" ++
      "\n    </a>" ++
      "\n  " := by
  refine ⟨?_, ?_, ?_, ?_, rfl, ?_, ?_, ?_, ?_⟩
  · unfold renderGifs
    cases getElementById dom containerId with
    | none => exact ⟨_, rfl⟩
    | some _ => dsimp only; split <;> exact ⟨_, rfl⟩
  · unfold renderPdfs
    cases getElementById dom containerId with
    | none => exact ⟨_, rfl⟩
    | some _ =>
      dsimp only
      split
      · exact ⟨_, rfl⟩
      · obtain ⟨cards, hm, _⟩ := mapM_pdfCard_ok basePath
          (filterPdfs pdfs (defaultFilter filter))
          (fun p hp => hpal p (by
            unfold filterPdfs at hp
            split at hp
            · exact hp
            · exact List.mem_of_mem_filter hp))
        rw [hm]
        exact ⟨_, rfl⟩
  · unfold renderStandalone
    cases getElementById dom containerId with
    | none => exact ⟨_, rfl⟩
    | some _ => dsimp only; split <;> exact ⟨_, rfl⟩
  · unfold renderSources
    cases getElementById dom containerId with
    | none => exact ⟨_, rfl⟩
    | some _ => dsimp only; split <;> exact ⟨_, rfl⟩
  · rfl
  · rfl
  · rfl
  · rfl

/-- The amended claim C8 at the records that lack every field, the PDF record
keeping an empty palette. -/
theorem render_missing_fields_witness :
    (∃ d, renderGifs gridDom "pdf-grid" [bareGif] "./" = .ok d) ∧
    (∃ d, renderPdfs gridDom "pdf-grid" [paletteOnlyPdf] "./" .undefined = .ok d) ∧
    (∃ d, renderStandalone gridDom "pdf-grid" [bareStandalone] "./" = .ok d) ∧
    (∃ d, renderSources gridDom "pdf-grid" [bareSource] "./" = .ok d) :=
  have h := render_missing_fields gridDom "pdf-grid" "./" .undefined [bareGif] [paletteOnlyPdf]
    [bareStandalone] [bareSource]
    (by
      intro p hp
      rw [List.mem_singleton] at hp
      subst hp
      exact ⟨[], rfl⟩)
  ⟨h.1, h.2.1, h.2.2.1, h.2.2.2.1⟩

/-! ## Properties of the filter bar of the collection page -/

/-- The accumulation of `new Set` keeps distinctness and collects the members. -/
theorem foldl_newSet (xs acc : List Prim) (hacc : acc.Nodup) :
    (xs.foldl (fun acc x => if x ∈ acc then acc else acc ++ [x]) acc).Nodup ∧
    ∀ v, v ∈ xs.foldl (fun acc x => if x ∈ acc then acc else acc ++ [x]) acc ↔
      v ∈ acc ∨ v ∈ xs := by
  induction xs generalizing acc with
  | nil => exact ⟨hacc, fun v => by simp⟩
  | cons x xs ih =>
    rw [List.foldl_cons]
    by_cases hx : x ∈ acc
    · rw [if_pos hx]
      obtain ⟨h1, h2⟩ := ih acc hacc
      refine ⟨h1, fun v => ?_⟩
      rw [h2 v, List.mem_cons]
      constructor
      · rintro (h | h)
        · exact Or.inl h
        · exact Or.inr (Or.inr h)
      · rintro (h | h | h)
        · exact Or.inl h
        · exact Or.inl (h ▸ hx)
        · exact Or.inr h
    · rw [if_neg hx]
      have hn : (acc ++ [x]).Nodup := by
        rw [List.nodup_append]
        refine ⟨hacc, List.nodup_singleton x, ?_⟩
        intro a ha hb
        rw [List.mem_singleton] at hb
        exact hx (hb ▸ ha)
      obtain ⟨h1, h2⟩ := ih (acc ++ [x]) hn
      refine ⟨h1, fun v => ?_⟩
      rw [h2 v, List.mem_append, List.mem_singleton, List.mem_cons]
      tauto

/-- The array `[...new Set(xs)]` has no duplicates. -/
theorem nodup_newSet (xs : List Prim) : (newSet xs).Nodup :=
  (foldl_newSet xs [] List.nodup_nil).1

/-- The array `[...new Set(xs)]` has the members of `xs`. -/
theorem mem_newSet (xs : List Prim) (v : Prim) : v ∈ newSet xs ↔ v ∈ xs := by
  unfold newSet
  rw [(foldl_newSet xs [] List.nodup_nil).2 v]
  simp

/-- The default comparison, spelled out: `undefined` is greatest, other values
compare by the code units of their string forms. -/
theorem sortLe_iff (a b : Prim) :
    sortLe a b = true ↔
      b = .undefined ∨ (a ≠ .undefined ∧ utf16 a.toStr ≤ utf16 b.toStr) := by
  cases a <;> cases b <;> simp [sortLe]

/-- The default comparison is total. -/
theorem sortLe_total (a b : Prim) : sortLe a b = true ∨ sortLe b a = true := by
  rw [sortLe_iff, sortLe_iff]
  by_cases ha : a = .undefined
  · exact Or.inr (Or.inl ha)
  · by_cases hb : b = .undefined
    · exact Or.inl (Or.inl hb)
    · rcases le_total (utf16 a.toStr) (utf16 b.toStr) with h | h
      · exact Or.inl (Or.inr ⟨ha, h⟩)
      · exact Or.inr (Or.inr ⟨hb, h⟩)

/-- The default comparison is transitive. -/
theorem sortLe_trans (a b c : Prim) (hab : sortLe a b = true) (hbc : sortLe b c = true) :
    sortLe a c = true := by
  rw [sortLe_iff] at hab hbc ⊢
  rcases hbc with hc | ⟨hb, hbc⟩
  · exact Or.inl hc
  · rcases hab with hb2 | ⟨ha, hab⟩
    · exact absurd hb2 hb
    · exact Or.inr ⟨ha, le_trans hab hbc⟩

/-- The default sort yields a list in ascending order of the comparison. -/
theorem sorted_sortDefault (xs : List Prim) :
    (sortDefault xs).Pairwise (fun a b => sortLe a b = true) :=
  @List.sorted_insertionSort Prim (fun a b => sortLe a b = true) _ ⟨sortLe_total⟩
    ⟨sortLe_trans⟩ xs

/-- The default sort permutes its argument. -/
theorem perm_sortDefault (xs : List Prim) : (sortDefault xs).Perm xs :=
  List.perm_insertionSort (fun a b => sortLe a b = true) xs

/-- Between values other than `undefined`, the default comparison is the order
of the code units of the string forms. -/
theorem sortLe_defined (a b : Prim) (hb : b ≠ .undefined)
    (h : sortLe a b = true) : utf16 a.toStr ≤ utf16 b.toStr := by
  rw [sortLe_iff] at h
  rcases h with h | h
  · exact absurd h hb
  · exact h.2

/-- The series buttons have no duplicates and stand for the series values that
occur in the list. -/
theorem seriesSet_members (pdfs : List PdfItem) :
    (seriesSet pdfs).Nodup ∧ ∀ v, v ∈ seriesSet pdfs ↔ ∃ p ∈ pdfs, p.series = v := by
  unfold seriesSet
  constructor
  · exact (perm_sortDefault _).nodup_iff.2 (nodup_newSet _)
  · intro v
    rw [(perm_sortDefault _).mem_iff, mem_newSet, List.mem_map]

/-- The code units of a string of the Basic Multilingual Plane are the code
points of its characters. -/
theorem utf16_bmp (label : String) (h : ∀ c ∈ label.toList, c.toNat < 0x10000) :
    utf16 label = label.toList.map Char.toNat := by
  unfold utf16
  generalize label.toList = cs at h
  induction cs with
  | nil => rfl
  | cons c cs ih =>
    have hc : c.toNat < 0x10000 := h c (List.mem_cons_self _ _)
    rw [List.flatMap_cons, List.map_cons, ih (fun d hd => h d (List.mem_cons_of_mem _ hd))]
    simp [charUnits, hc]

/-- Claim C5, as stated, fails: for the posters of the series `apple` and
`Zebra` the series buttons come as Zebra, apple, which is not ascending
alphabetical order. -/
theorem filterBar_not_alphabetical :
    zebraPdfs ≠ [] ∧
    seriesSet zebraPdfs = [.str "Zebra", .str "apple"] ∧
    (seriesSet zebraPdfs).map seriesButton =
      [ "<button class=\"filter-btn\" data-filter=\"Zebra\">Zebra</button>",
        "<button class=\"filter-btn\" data-filter=\"apple\">apple</button>" ] ∧
    ¬ (seriesSet zebraPdfs).Pairwise (fun a b => dictionaryLe a.toStr b.toStr) := by
  refine ⟨by decide, by decide, by decide, ?_⟩
  have e : seriesSet zebraPdfs = [.str "Zebra", .str "apple"] := by decide
  rw [e]
  unfold dictionaryLe
  decide

/-- Claim C5, amended: for a non-empty PDF list, the filter bar built by
`renderCollectionPage` is the "all" button, labelled with the number of items,
followed by one button per value of `seriesSet`; these values are exactly the
series values that occur in the list, without duplicates, in the order of the
default sort: a missing series (`undefined`) last, the others ascending by the
UTF-16 code units of their labels (the code points, for characters below
U+10000), so that `Zebra` precedes `apple` and `10` precedes `9`.  For the two
posters of series `S1` and `S2` the buttons are All (2), S1, S2. -/
theorem filterBar_buttons (pdfs : List PdfItem) (hne : pdfs ≠ []) :
    postersSection pdfs =
      "\n      <section id=\"posters\">" ++
      "\n        <div class=\"section-header fade-in\">" ++
      "\n          <h2>PDF Posters</h2>" ++
      "\n          <div class=\"divider\"></div>" ++
      "\n          <p>" ++ toString pdfs.length ++
        " unique A3 vector PDFs exploring geometry, fractals, physics, and mathematical beauty.</p>" ++
      "\n        </div>" ++
      "\n        " ++ filterBar pdfs ++
      "\n        <div class=\"pdf-grid\" id=\"pdf-grid\"></div>" ++
      "\n      </section>" ++
      "\n    " ∧
    filterBar pdfs =
      "<div class=\"filter-bar\" id=\"pdf-filters\">" ++
      "\n          " ++
      ("<button class=\"filter-btn active\" data-filter=\"all\">All (" ++
        toString pdfs.length ++ ")</button>") ++
      "\n          " ++ String.join ((seriesSet pdfs).map seriesButton) ++
      "\n        </div>" ∧
    (seriesSet pdfs).Nodup ∧
    (∀ v, v ∈ seriesSet pdfs ↔ ∃ p ∈ pdfs, p.series = v) ∧
    (seriesSet pdfs).Pairwise
      (fun a b => b = .undefined ∨ (a ≠ .undefined ∧ utf16 a.toStr ≤ utf16 b.toStr)) ∧
    (∀ label : String, (∀ c ∈ label.toList, c.toNat < 0x10000) →
      utf16 label = label.toList.map Char.toNat) ∧
    utf16 "aZ😀" = [97, 90, 55357, 56832] ∧
    seriesSet shuffledPdfs =
      [.num 10, .num 9, .str "S1", .str "S2", .str "Zebra", .str "apple", .undefined] ∧
    filterBar scenarioPdfs =
      "<div class=\"filter-bar\" id=\"pdf-filters\">" ++
      "\n          <button class=\"filter-btn active\" data-filter=\"all\">All (2)</button>" ++
      "\n          <button class=\"filter-btn\" data-filter=\"S1\">S1</button>" ++
      "<button class=\"filter-btn\" data-filter=\"S2\">S2</button>" ++
      "\n        </div>" := by
  refine ⟨?_, rfl, (seriesSet_members pdfs).1, (seriesSet_members pdfs).2, ?_, utf16_bmp,
    by decide, by decide, rfl⟩
  · unfold postersSection
    rw [if_neg (by simpa using hne)]
  · refine List.Pairwise.imp ?_ (sorted_sortDefault _)
    intro a b hab
    exact (sortLe_iff a b).1 hab

/-- The amended claim C5 at posters whose series repeat and come unsorted. -/
theorem filterBar_buttons_witness :
    (seriesSet shuffledPdfs).Nodup ∧
    (∀ v, v ∈ seriesSet shuffledPdfs ↔ ∃ p ∈ shuffledPdfs, p.series = v) ∧
    (seriesSet shuffledPdfs).Pairwise
      (fun a b => b = .undefined ∨ (a ≠ .undefined ∧ utf16 a.toStr ≤ utf16 b.toStr)) ∧
    String.join ((seriesSet shuffledPdfs).map seriesButton) =
      "<button class=\"filter-btn\" data-filter=\"10\">10</button>" ++
      "<button class=\"filter-btn\" data-filter=\"9\">9</button>" ++
      "<button class=\"filter-btn\" data-filter=\"S1\">S1</button>" ++
      "<button class=\"filter-btn\" data-filter=\"S2\">S2</button>" ++
      "<button class=\"filter-btn\" data-filter=\"Zebra\">Zebra</button>" ++
      "<button class=\"filter-btn\" data-filter=\"apple\">apple</button>" ++
      "<button class=\"filter-btn\" data-filter=\"undefined\">undefined</button>" :=
  have h := filterBar_buttons shuffledPdfs (by decide)
  ⟨h.2.2.1, h.2.2.2.1, h.2.2.2.2.1, by rw [h.2.2.2.2.2.2.2.1]; rfl⟩

/-! ## Properties of the filter buttons -/

theorem hasClass_removeClass (e : Elem) (c k : String) :
    (e.removeClass c).hasClass k = (e.hasClass k && decide (k ≠ c)) := by
  simp [Elem.hasClass, Elem.removeClass, List.mem_filter]

theorem hasClass_addClass (e : Elem) (c k : String) :
    (e.addClass c).hasClass k = (e.hasClass k || decide (k = c)) := by
  unfold Elem.addClass
  by_cases h : c ∈ e.classList
  · rw [if_pos h]
    by_cases hk : k = c
    · subst hk
      simp [Elem.hasClass, h]
    · simp [hk]
  · rw [if_neg h]
    simp [Elem.hasClass]

theorem datasetFilter_addClass (e : Elem) (c : String) :
    (e.addClass c).datasetFilter = e.datasetFilter := by
  unfold Elem.addClass
  split <;> rfl

theorem datasetFilter_deactivate (e : Elem) : (deactivate e).datasetFilter = e.datasetFilter := by
  unfold deactivate
  split <;> rfl

/-- Deactivation keeps the button tag. -/
theorem isButton_deactivate (e : Elem) :
    (deactivate e).hasClass "filter-btn" = e.hasClass "filter-btn" := by
  unfold deactivate
  by_cases h : e.hasClass "filter-btn" = true
  · rw [if_pos h, hasClass_removeClass]
    simp
  · rw [if_neg h]

/-- A deactivated button is not active. -/
theorem not_active_deactivate (e : Elem) (h : e.hasClass "filter-btn" = true) :
    (deactivate e).hasClass "active" = false := by
  unfold deactivate
  rw [if_pos h, hasClass_removeClass]
  simp

theorem deactivate_button (e : Elem) (h : e.hasClass "filter-btn" = true) :
    deactivate e = e.removeClass "active" := by
  unfold deactivate
  rw [if_pos h]

theorem deactivate_other (e : Elem) (h : ¬ e.hasClass "filter-btn" = true) :
    deactivate e = e := by
  unfold deactivate
  rw [if_neg h]

/-- Deactivating twice is deactivating once. -/
theorem deactivate_deactivate (e : Elem) : deactivate (deactivate e) = deactivate e := by
  by_cases h : e.hasClass "filter-btn" = true
  · have h2 : (deactivate e).hasClass "filter-btn" = true := by rw [isButton_deactivate, h]
    rw [deactivate_button _ h2, deactivate_button _ h]
    simp [Elem.removeClass, List.filter_filter]
  · have h2 : ¬ (deactivate e).hasClass "filter-btn" = true := by rw [isButton_deactivate]; exact h
    rw [deactivate_other _ h2]

/-- Deactivating the activated button and activating it again restores it. -/
theorem reactivate (b : Elem) (h : b.hasClass "filter-btn" = true) :
    (deactivate ((deactivate b).addClass "active")).addClass "active"
      = (deactivate b).addClass "active" := by
  have hn : "active" ∉ (b.removeClass "active").classList := by
    simp [Elem.removeClass, List.mem_filter]
  have ha : (b.removeClass "active").addClass "active"
      = { b with classList := (b.removeClass "active").classList ++ ["active"] } := by
    unfold Elem.addClass
    rw [if_neg hn]
    rfl
  have hb2 : ((b.removeClass "active").addClass "active").hasClass "filter-btn" = true := by
    rw [hasClass_addClass, hasClass_removeClass, h]
    decide
  rw [deactivate_button b h, deactivate_button _ hb2, ha]
  simp [Elem.removeClass, Elem.addClass, List.filter_append, List.filter_filter]

/-- Rendering again into the document a render left behind changes nothing. -/
theorem afterRender_again (dom : Dom) (containerId basePath : String) (pdfs : List PdfItem)
    (filter : Prim) :
    afterRender (afterRender dom (renderPdfs dom containerId pdfs basePath filter))
      (renderPdfs (afterRender dom (renderPdfs dom containerId pdfs basePath filter))
        containerId pdfs basePath filter)
    = afterRender dom (renderPdfs dom containerId pdfs basePath filter) := by
  cases hc : getElementById dom containerId with
  | none =>
    have e : renderPdfs dom containerId pdfs basePath filter = .ok dom := by
      unfold renderPdfs
      simp only [hc]
    rw [e]
    simp only [afterRender]
    rw [e]
  | some c =>
    by_cases hl : pdfs.length = 0
    · have e : renderPdfs dom containerId pdfs basePath filter = .ok dom := by
        unfold renderPdfs
        simp only [hc]
        rw [if_pos hl]
      rw [e]
      simp only [afterRender]
      rw [e]
    · have hne : pdfs ≠ [] := by
        intro h
        exact hl (by rw [h]; rfl)
      rw [renderPdfs_present dom containerId basePath c pdfs filter hc hne]
      cases hm : (filterPdfs pdfs (defaultFilter filter)).mapM (pdfCard basePath) with
      | error e =>
        simp only [afterRender]
        rw [renderPdfs_present dom containerId basePath c pdfs filter hc hne, hm]
      | ok cards =>
        simp only [afterRender]
        have hc2 : getElementById (setInnerHTML dom containerId (String.join cards)) containerId
            = some (String.join cards) := by
          simp [getElementById, setInnerHTML]
        rw [renderPdfs_present _ containerId basePath _ pdfs filter hc2 hne, hm]
        simp only
        funext k
        simp only [setInnerHTML]
        split <;> rfl

/-- The listener on a click whose target is a filter button among the
descendants of the bar. -/
theorem onFilterClick_button (grid basePath : String) (pdfs : List PdfItem) (s : FilterState)
    (i : Nat) (b : Elem) (hb : s.elems[i]? = some b) (hbtn : b.hasClass "filter-btn" = true) :
    onFilterClick grid pdfs basePath s (.child i) =
      { bar := s.bar
        elems := (s.elems.map deactivate).modify (fun e => e.addClass "active") i
        dom := afterRender s.dom (renderPdfs s.dom grid pdfs basePath b.datasetFilter) } := by
  unfold onFilterClick
  simp only [FilterState.target, hb, hbtn, activateTarget]
  rfl

/-- The descendants of the bar after a click on the button at index `i`. -/
theorem getElem?_clicked (elems : List Elem) (i j : Nat) :
    ((elems.map deactivate).modify (fun e => e.addClass "active") i)[j]? =
      (elems[j]?).map (fun e => if i = j then (deactivate e).addClass "active" else deactivate e) := by
  rw [List.getElem?_modify, List.getElem?_map]
  cases elems[j]? with
  | none => rfl
  | some e =>
    simp only [Option.map_some', Option.map_eq_map]

/-- Claim C6: in any state of the filter bar, a click on a filter button `b`
(the descendant at index `i`) leaves exactly one filter button active, the one
at index `i`, which keeps the filter value of `b`; the document is the one
`renderPdfs` leaves behind for the item list and the filter value of `b`; a
second click on the same button changes nothing; and a click on a target that
is not tagged as a filter button leaves the state as it was. -/
theorem filter_click (grid basePath : String) (pdfs : List PdfItem) (s : FilterState)
    (i : Nat) (b : Elem) (hb : s.elems[i]? = some b) (hbtn : b.hasClass "filter-btn" = true) :
    (∀ j e, (onFilterClick grid pdfs basePath s (.child i)).elems[j]? = some e →
      e.hasClass "filter-btn" = true → (e.hasClass "active" = true ↔ j = i)) ∧
    (∃ e, (onFilterClick grid pdfs basePath s (.child i)).elems[i]? = some e ∧
      e.hasClass "filter-btn" = true ∧ e.hasClass "active" = true ∧
      e.dataFilter = b.dataFilter) ∧
    (∀ j : Nat, ((onFilterClick grid pdfs basePath s (.child i)).elems[j]?).map
        (fun e => (e.hasClass "filter-btn", e.datasetFilter))
      = (s.elems[j]?).map (fun e => (e.hasClass "filter-btn", e.datasetFilter))) ∧
    (onFilterClick grid pdfs basePath s (.child i)).dom
      = afterRender s.dom (renderPdfs s.dom grid pdfs basePath b.datasetFilter) ∧
    onFilterClick grid pdfs basePath (onFilterClick grid pdfs basePath s (.child i)) (.child i)
      = onFilterClick grid pdfs basePath s (.child i) ∧
    (∀ t, (∀ e, s.target t = some e → e.hasClass "filter-btn" = false) →
      onFilterClick grid pdfs basePath s t = s) := by
  have hclick := onFilterClick_button grid basePath pdfs s i b hb hbtn
  have hat : ((s.elems.map deactivate).modify (fun e => e.addClass "active") i)[i]?
      = some ((deactivate b).addClass "active") := by
    rw [getElem?_clicked, hb]
    simp
  have hbtn2 : ((deactivate b).addClass "active").hasClass "filter-btn" = true := by
    rw [hasClass_addClass, isButton_deactivate, hbtn]
    rfl
  refine ⟨?_, ?_, ?_, ?_, ?_, ?_⟩
  · intro j e hj hbe
    rw [hclick] at hj
    simp only [getElem?_clicked] at hj
    cases h0 : s.elems[j]? with
    | none => rw [h0] at hj; cases hj
    | some e0 =>
      rw [h0] at hj
      simp only [Option.map_some', Option.some.injEq] at hj
      by_cases hij : i = j
      · rw [if_pos hij] at hj
        subst hj
        simp [hasClass_addClass, hij]
      · rw [if_neg hij] at hj
        subst hj
        rw [isButton_deactivate] at hbe
        rw [not_active_deactivate e0 hbe]
        constructor
        · intro h; cases h
        · intro h; exact absurd h.symm hij
  · refine ⟨(deactivate b).addClass "active", ?_, hbtn2, ?_, ?_⟩
    · rw [hclick]
      exact hat
    · simp [hasClass_addClass]
    · unfold Elem.addClass deactivate
      split <;> split <;> rfl
  · intro j
    rw [hclick]
    simp only [getElem?_clicked]
    cases s.elems[j]? with
    | none => rfl
    | some e0 =>
      simp only [Option.map_some', Option.some.injEq]
      split
      · rw [hasClass_addClass, isButton_deactivate, datasetFilter_addClass,
          datasetFilter_deactivate]
        simp
      · rw [isButton_deactivate, datasetFilter_deactivate]
  · rw [hclick]
  · rw [hclick]
    rw [onFilterClick_button grid basePath pdfs _ i _ hat hbtn2]
    have hd : ((deactivate b).addClass "active").datasetFilter = b.datasetFilter := by
      rw [datasetFilter_addClass, datasetFilter_deactivate]
    have he : (((s.elems.map deactivate).modify (fun e => e.addClass "active") i).map
        deactivate).modify (fun e => e.addClass "active") i
        = (s.elems.map deactivate).modify (fun e => e.addClass "active") i := by
      apply List.ext_getElem?
      intro j
      rw [getElem?_clicked, getElem?_clicked]
      cases h0 : s.elems[j]? with
      | none => rfl
      | some e0 =>
        simp only [Option.map_some', Option.some.injEq]
        by_cases hij : i = j
        · rw [if_pos hij, if_pos hij]
          have hb0 : e0.hasClass "filter-btn" = true := by
            subst hij
            rw [hb] at h0
            cases h0
            exact hbtn
          exact reactivate e0 hb0
        · rw [if_neg hij, if_neg hij, deactivate_deactivate]
    simp only [he, hd, afterRender_again]
  · intro t ht
    unfold onFilterClick
    cases h : s.target t with
    | none => rfl
    | some e =>
      simp only [ht e h]
      rfl

/-- Claim C6 at the page of the example scenario, on a click on the `S1` button:
that button becomes the active one, a second click changes nothing, and the
grid holds the card of the single poster of series `S1`. -/
theorem filter_click_witness :
    (∃ e, (onFilterClick "pdf-grid" scenarioPdfs "./" scenarioState (.child 1)).elems[1]? = some e ∧
      e.hasClass "filter-btn" = true ∧ e.hasClass "active" = true ∧
      e.dataFilter = some "S1") ∧
    onFilterClick "pdf-grid" scenarioPdfs "./"
        (onFilterClick "pdf-grid" scenarioPdfs "./" scenarioState (.child 1)) (.child 1)
      = onFilterClick "pdf-grid" scenarioPdfs "./" scenarioState (.child 1) ∧
    (onFilterClick "pdf-grid" scenarioPdfs "./" scenarioState (.child 1)).dom "pdf-grid"
      = some (pdfCardWith "./"
          { n := .prim (.num 1), file := .prim (.str "a"), name := .prim (.str "A"),
            concept := .prim (.str "c"), series := .str "S1", palette := .arr [.str "#fff"] }
          "<span class=\"dot\" style=\"background:#fff\"></span>") :=
  have h := filter_click "pdf-grid" "./" scenarioPdfs scenarioState 1
    { classList := ["filter-btn"], dataFilter := some "S1" } rfl rfl
  ⟨h.2.1, h.2.2.2.2.1, by rw [h.2.2.2.1]; rfl⟩

/-- A population made by `createParticles` from draws in `[0, 1)` starts inside
the canvas. -/
theorem createParticles_inside (w h : Nat) (rand : Nat → ℚ)
    (hr : ∀ k, 0 ≤ rand k ∧ rand k < 1) (p : Particle) (hp : p ∈ createParticles w h rand) :
    (0 ≤ p.x ∧ p.x ≤ w) ∧ (0 ≤ p.y ∧ p.y ≤ h) := by
  simp only [createParticles, List.mem_map, List.mem_range] at hp
  obtain ⟨i, _, rfl⟩ := hp
  have hw : (0 : ℚ) ≤ w := Nat.cast_nonneg w
  have hh : (0 : ℚ) ≤ h := Nat.cast_nonneg h
  refine ⟨⟨mul_nonneg (hr _).1 hw, ?_⟩, ⟨mul_nonneg (hr _).1 hh, ?_⟩⟩
  · exact mul_le_of_le_one_left hw (le_of_lt (hr _).2)
  · exact mul_le_of_le_one_left hh (le_of_lt (hr _).2)

end Gallery
